import Mathlib

/-!
# A verified model of the BaseballBinder eBay match-and-price engine

This file is an executable shallow embedding of the match-and-price engine
implemented in `ebay_service.py` (class `eBayService`) of the BaseballBinder
repository, together with theorems about the engine's behaviour.

Modelling conventions.

* Python `str` values are modelled as `List Char` (abbreviated `Str`);
  Python's substring test `needle in hay` becomes `pyIn`, `str.lower()`
  becomes `pyLower`, `str.split()` becomes `pyWords`, `str.strip()` becomes
  `pyStrip`, and `str.replace("#", "")` becomes `stripHash`.
* Python `float` prices and relevance scores are modelled as exact rationals
  (`Q` below, a kernel-computable fraction type).  All float values that the
  engine manipulates (score increments 0.2/0.4, the 0.6 threshold, listing
  prices and their means) are exactly representable, and at the values the
  code compares, exact-rational comparison agrees with the source's binary
  float comparison.  `round(x, 2)` is modelled as decimal round-half-even at
  two places (`round2`).
* The database-backed cache (`EbaySearchCache`) is modelled as an association
  list keyed by the query string; the call log (`EbayApiCallLog`) as a list
  that is only ever appended to; the same-day request counter as a `Nat`.
  JSON (de)serialisation of cached results is modelled as the identity.
* The network is abstracted into an `Oracle : Str → List Item × Nat` giving,
  for each query string, the item summaries and the `total` field of a
  successful Browse API response.  Token acquisition (`_get_access_token`)
  and the inter-request sleep (`_wait_for_rate_limit`) have no observable
  effect in this fragment and are not modelled; transport failures and
  HTTP 429 responses from the search endpoint are outside the modelled
  fragment (no claim below concerns them).
* `search_card`'s keyword argument `variety` is dynamically typed in Python:
  `get_average_price` passes an `int` into it.  It is therefore modelled by
  the sum type `VarietyArg` (`noneV`/`strV`/`intV`), and
  `_build_variety_terms` can fail with `attrError`, modelling the
  `AttributeError` raised by `variety.lower()` on an `int`.
* Python `dict` results are modelled by structures; keys absent from a
  particular dict shape (for example `sample_size` in the empty pricing
  dict) are `Option` fields set to `none`.
* `set()`-valued term collections in `_build_brand_terms` and
  `_build_variety_terms` are modelled as duplicate-free lists in insertion
  order (Python set iteration order is unspecified; every property proved
  below is order-insensitive).
-/

set_option autoImplicit false

namespace BaseballBinder

/-! ## Exact rationals

A minimal, kernel-computable fraction type.  Every operation returns a
normalised value (reduced fraction, positive denominator), so structural
equality of results of these operations coincides with rational equality.
-/

structure Q where
  num : Int
  den : Nat
deriving DecidableEq

/-- Normalised fraction `n / d` (for `d ≠ 0`); `d = 0` is never produced by
the embedding and is mapped to `0`. -/
def Q.mk' (n : Int) (d : Nat) : Q :=
  if d = 0 then ⟨0, 1⟩
  else
    let g := Nat.gcd n.natAbs d
    ⟨n / (g : Int), d / g⟩

def Q.ofInt (n : Int) : Q := ⟨n, 1⟩

instance (n : Nat) : OfNat Q n := ⟨⟨(n : Int), 1⟩⟩

def Q.add (a b : Q) : Q := Q.mk' (a.num * (b.den : Int) + b.num * (a.den : Int)) (a.den * b.den)

def Q.sub (a b : Q) : Q := Q.mk' (a.num * (b.den : Int) - b.num * (a.den : Int)) (a.den * b.den)

def Q.mul (a b : Q) : Q := Q.mk' (a.num * b.num) (a.den * b.den)

/-- Division; the embedding never divides by zero. -/
def Q.div (a b : Q) : Q :=
  let n := a.num * (b.den : Int)
  let d := (a.den : Int) * b.num
  if d < 0 then Q.mk' (-n) (-d).toNat else Q.mk' n d.toNat

instance : Add Q := ⟨Q.add⟩

instance : Sub Q := ⟨Q.sub⟩

instance : Mul Q := ⟨Q.mul⟩

instance : Div Q := ⟨Q.div⟩

/-- Boolean `a ≤ b` (denominators produced by the embedding are positive). -/
def Q.ble (a b : Q) : Bool := decide (a.num * (b.den : Int) ≤ b.num * (a.den : Int))

/-- Boolean `a < b`. -/
def Q.blt (a b : Q) : Bool := decide (a.num * (b.den : Int) < b.num * (a.den : Int))

/-- Floor of a fraction with positive denominator. -/
def Q.floorI (a : Q) : Int := Int.fdiv a.num (a.den : Int)

/-- Sum of a list of fractions, as Python's `sum`. -/
def Q.listSum (l : List Q) : Q := l.foldl Q.add 0

/-- Python's `min` over a non-empty list (`0` on the empty list, which the
embedding never queries). -/
def Q.listMin (l : List Q) : Q :=
  match l with
  | [] => 0
  | x :: xs => xs.foldl (fun a b => if Q.ble a b then a else b) x

/-- Python's `max` over a non-empty list. -/
def Q.listMax (l : List Q) : Q :=
  match l with
  | [] => 0
  | x :: xs => xs.foldl (fun a b => if Q.ble a b then b else a) x

/-- Round to the nearest integer, halves to the even neighbour (the tie rule
of Python's `round`). -/
def roundHalfEven (q : Q) : Int :=
  let f := q.floorI
  let r := q - Q.ofInt f
  if Q.blt r (Q.mk' 1 2) then f
  else if Q.blt (Q.mk' 1 2) r then f + 1
  else if f % 2 = 0 then f else f + 1

/-- `round(x, 2)` of the source, as exact decimal rounding at two places. -/
def round2 (q : Q) : Q := Q.div (Q.ofInt (roundHalfEven (q * Q.ofInt 100))) (Q.ofInt 100)

/-! ## Python string primitives -/

/-- Python `str`, as a list of characters. -/
abbrev Str := List Char

/-- Python's `needle in hay` substring test. -/
def pyIn (needle hay : Str) : Bool := hay.tails.any (fun t => needle.isPrefixOf t)

/-- Python's `str.lower()` (ASCII case folding, as used on the data involved). -/
def pyLower (s : Str) : Str := s.map Char.toLower

/-- Helper for `pyWords`: accumulate the current word (reversed) while
splitting at whitespace. -/
def pyWordsAux : Str → Str → List Str
  | [], acc => if acc.isEmpty then [] else [acc.reverse]
  | c :: cs, acc =>
    if c.isWhitespace then
      if acc.isEmpty then pyWordsAux cs [] else acc.reverse :: pyWordsAux cs []
    else pyWordsAux cs (c :: acc)

/-- Python's `str.split()` with no argument: split at whitespace runs,
discarding empty words. -/
def pyWords (s : Str) : List Str := pyWordsAux s []

/-- Python's `str.strip()`: drop leading and trailing whitespace. -/
def pyStrip (s : Str) : Str :=
  ((s.dropWhile Char.isWhitespace).reverse.dropWhile Char.isWhitespace).reverse

/-- Python's `str.replace("#", "")`. -/
def stripHash (s : Str) : Str := s.filter (fun c => c ≠ '#')

/-- Space-join of a term list, Python's `" ".join(terms)`. -/
def joinSpace : List Str → Str
  | [] => []
  | [t] => t
  | t :: ts => t ++ ' ' :: joinSpace ts

/-- Decimal rendering of a counter, Python's f-string interpolation of an int. -/
def natStr (n : Nat) : Str := (Nat.repr n).toList

/-! ## Data model -/

/-- A Browse API item summary, reduced to the fields the engine reads:
`title`, `price.value` (absent or unparsable modelled as `none`), and
`image.imageUrl`. -/
structure Item where
  title : Str
  price : Option Q
  image : Option Str
deriving DecidableEq

/-- An item together with its `_relevance_score`. -/
abbrev ScoredItem := Item × Q

/-- The pricing dict.  Keys that a given code path leaves out of the dict
(`sample_size`, `excluded_low`, `excluded_high` in the empty shapes, `error`
in the non-error shapes) are `none`. -/
structure Pricing where
  minPrice : Option Q
  maxPrice : Option Q
  avgPrice : Option Q
  medianPrice : Option Q
  count : Nat
  sampleSize : Option Nat
  excludedLow : Option Nat
  excludedHigh : Option Nat
  errorMsg : Option Str
deriving DecidableEq

/-- The zero-result pricing dict built inline in `search_card` (and equally
the empty-input result of `_calculate_pricing`). -/
def emptyPricing : Pricing :=
  { minPrice := none, maxPrice := none, avgPrice := none, medianPrice := none,
    count := 0, sampleSize := none, excludedLow := none, excludedHigh := none,
    errorMsg := none }

/-- The result dict returned by `search_card`. -/
structure SearchResult where
  searchQuery : Str
  totalResults : Nat
  items : List ScoredItem
  pricing : Pricing
  sampleImages : List Str
deriving DecidableEq

/-- A row of `EbaySearchCache`. -/
structure CacheEntry where
  resultData : SearchResult
  createdAt : Nat
  expiresAt : Nat
  hitCount : Nat
deriving DecidableEq

/-- A row of `EbayApiCallLog`, as written by `_log_api_call` (response times
are modelled as 0). -/
structure LogEntry where
  endpoint : Str
  searchQuery : Str
  cardId : Option Nat
  responseStatus : Nat
  responseTimeMs : Nat
  itemsReturned : Nat
  cacheHit : Bool
  success : Bool
  errorMessage : Option Str
deriving DecidableEq

/-- The engine's mutable environment: the same-day request counter (the JSON
counter file), the cache table, the call-log table, plus a network-call
counter (number of live Browse API requests issued, for stating the
rate-budget properties) and the current time in seconds. -/
structure SvcState where
  requestCount : Nat
  cache : List (Str × CacheEntry)
  callLog : List LogEntry
  networkCalls : Nat
  now : Nat
deriving DecidableEq

/-- Errors escaping a lookup: `oauth` is `eBayOAuthError`, `attrError` is an
uncaught `AttributeError` from dynamic typing. -/
inductive SvcError where
  | oauth (msg : Str)
  | attrError
deriving DecidableEq

instance {ε α : Type} [DecidableEq ε] [DecidableEq α] : DecidableEq (Except ε α) := fun a b =>
  match a, b with
  | .ok x, .ok y =>
    if h : x = y then isTrue (by rw [h]) else isFalse (by intro hh; cases hh; exact h rfl)
  | .error x, .error y =>
    if h : x = y then isTrue (by rw [h]) else isFalse (by intro hh; cases hh; exact h rfl)
  | .ok _, .error _ => isFalse (by intro hh; cases hh)
  | .error _, .ok _ => isFalse (by intro hh; cases hh)

/-- The abstracted network: items and `total` of the Browse API response for
a query. -/
abbrev Oracle := Str → List Item × Nat

/-- The runtime value bound to `search_card`'s `variety` parameter: `None`, a
`str`, or (through `get_average_price`'s positional call) an `int`. -/
inductive VarietyArg where
  | noneV
  | strV (s : Str)
  | intV (n : Nat)
deriving DecidableEq

/-- Python truthiness of a `variety` value. -/
def VarietyArg.truthy : VarietyArg → Bool
  | .noneV => false
  | .strV s => !s.isEmpty
  | .intV n => n != 0

/-- Python truthiness of an `Optional[str]`. -/
def optTruthy : Option Str → Bool
  | some s => !s.isEmpty
  | none => false

/-- The keyword arguments of `search_card` (without the `_is_broadening`
flag, which selects between `searchCard` and `searchCardB` below). -/
structure SearchArgs where
  year : Str
  brand : Str
  playerName : Str
  cardNumber : Option Str
  variety : VarietyArg
  parallel : Option Str
  autograph : Bool
  graded : Option Str
  numbered : Option Str
  cardId : Option Nat
  manualQuery : Option Str
deriving DecidableEq

/-! ## `_filter_items` (multi-item listing filter) -/

/-- The multi-item phrases tested by `_filter_items`. -/
def multiPhrases : List Str :=
  ["pick your".toList, "choose".toList, "lot".toList, "player list".toList]

/-- `_filter_items`: drop an item whose lowercased title contains a
multi-item phrase, unless the wanted card number (lowercased, `#` removed)
occurs in the title with `#` removed. -/
def filterItems (items : List Item) (cardNumber : Option Str) : List Item :=
  if items.isEmpty then []
  else
    let needle := stripHash (pyLower (match cardNumber with | some c => c | none => []))
    items.filter (fun item =>
      let title := pyLower item.title
      !(multiPhrases.any (fun t => pyIn t title) && !needle.isEmpty
          && !(pyIn needle (stripHash title))))

/-! ## Query construction -/

/-- `_unique_terms`, worker: keep a term if non-empty and not seen before. -/
def uniqueTermsAux (seen : List Str) : List Str → List Str
  | [] => []
  | t :: ts =>
    if t ≠ [] ∧ t ∉ seen then t :: uniqueTermsAux (t :: seen) ts
    else uniqueTermsAux seen ts

/-- `_unique_terms`: deduplicate preserving first-occurrence order, dropping
falsy (empty) terms. -/
def uniqueTerms (terms : List Str) : List Str := uniqueTermsAux [] terms

/-- Add an element to a set-modelled-as-list, in insertion order. -/
def insertNew (l : List Str) (t : Str) : List Str := if t ∈ l then l else l ++ [t]

/-- The `PANINI_BRANDS` table of `_build_brand_terms`. -/
def paniniBrands : List Str :=
  ["donruss".toList, "prizm".toList, "select".toList, "chronicles".toList,
   "optic".toList, "prestige".toList, "contenders".toList, "mosaic".toList,
   "absolute".toList, "crown royale".toList, "national treasures".toList,
   "immaculate".toList, "flawless".toList, "noir".toList, "encased".toList,
   "limited".toList, "spectra".toList, "phoenix".toList]

/-- `any(pb in lower for pb in PANINI_BRANDS)`. -/
def isPaniniBrand (lower : Str) : Bool := paniniBrands.any (fun pb => pyIn pb lower)

/-- `_build_brand_terms`. -/
def buildBrandTerms (brand : Str) : List Str :=
  if brand.isEmpty then []
  else
    let lower := pyLower brand
    let terms := [brand]
    let terms :=
      if isPaniniBrand lower && !(pyIn ("panini".toList) lower) then
        insertNew terms ("Panini ".toList ++ brand)
      else terms
    let terms :=
      if pyIn ("donruss optic".toList) lower then
        insertNew (insertNew terms ("Panini Donruss Optic".toList)) ("Donruss Optic".toList)
      else terms
    if pyIn ("topps chrome".toList) lower then insertNew terms ("Topps Chrome".toList)
    else terms

/-- The `INSERT_SYNONYMS` table. -/
def insertSynonyms : List (Str × List Str) :=
  [("t-minus".toList,
    ["T-Minus".toList, "T-Minus 3 2 1".toList, "T-Minus 3...2...1!".toList,
     "T Minus 3 2 1".toList])]

/-- `_build_variety_terms`.  On a truthy `int` (the value that
`get_average_price` passes through), `variety.lower()` raises
`AttributeError`. -/
def buildVarietyTerms : VarietyArg → Except SvcError (List Str)
  | .noneV => .ok []
  | .strV s =>
    if s.isEmpty then .ok []
    else
      let lower := pyLower s
      .ok (insertSynonyms.foldl
        (fun terms kv => if pyIn kv.1 lower then kv.2.foldl insertNew terms else terms) [s])
  | .intV n => if n == 0 then .ok [] else .error .attrError

/-- `re.search(r'/(\d+)$', numbered)`: the trailing digit run when it is
non-empty and preceded by `/`, returned in `/NN` form. -/
def printRunSuffix (s : Str) : Option Str :=
  let ds := (s.reverse.takeWhile Char.isDigit).reverse
  if ds.isEmpty then none
  else
    match (s.take (s.length - ds.length)).getLast? with
    | some '/' => some ('/' :: ds)
    | _ => none

/-- The term contributed by a truthy `numbered` argument. -/
def numberedTerm (nb : Str) : Str :=
  match printRunSuffix nb with
  | some pr => pr
  | none => nb

/-- The query built from parts in `search_card` (the `else` branch of
`if manual_query:`).  Evaluating the variety terms can raise, which in the
source happens before anything is logged or cached. -/
def builtQuery (a : SearchArgs) : Except SvcError Str :=
  match (if a.variety.truthy then buildVarietyTerms a.variety else .ok []) with
  | .error e => .error e
  | .ok varietyTerms =>
    let parts := [a.year, a.playerName] ++ buildBrandTerms a.brand
      ++ (match a.cardNumber with
          | some c => if c.isEmpty then [] else [('#' :: c)]
          | none => [])
      ++ varietyTerms
      ++ (match a.parallel with
          | some p => if p.isEmpty then [] else [p]
          | none => [])
      ++ (if a.autograph then ["autograph".toList] else [])
      ++ (match a.graded with
          | some g => if g.isEmpty then [] else [g]
          | none => [])
      ++ (match a.numbered with
          | some nb => if nb.isEmpty then [] else [numberedTerm nb]
          | none => [])
    .ok (joinSpace (uniqueTerms parts))

/-- The query `search_card` will use: a truthy `manual_query` wins (stripped),
otherwise the query is built from parts. -/
def buildQuery (a : SearchArgs) : Except SvcError Str :=
  match a.manualQuery with
  | some mq => if mq.isEmpty then builtQuery a else .ok (pyStrip mq)
  | none => builtQuery a

/-! ## Relevance scoring (`_score_result_relevance`, `_filter_by_relevance`) -/

/-- `_score_result_relevance`.  The source's early `return 0.0` statements are
flattened into nested conditionals; the float increments 0.4/0.2 are the
exact rationals 2/5 and 1/5 (at the reachable values, float and exact
comparison against the 0.6 threshold agree).  A whitespace-only
`player_name` raises `IndexError` in the source; it is modelled as the empty
last name (no claim involves such a name, and the subject facet then has no
satisfiable match anyway). -/
def scoreResultRelevance (item : Item) (year brand playerName : Str)
    (cardNumber : Option Str) : Q :=
  let title := pyLower item.title
  let playerLower := pyLower playerName
  let playerScore : Option Q :=
    if pyIn playerLower title then some (2/5)
    else
      let lastName := if playerLower.isEmpty then [] else (pyWords playerLower).getLastD []
      if !lastName.isEmpty && pyIn lastName title then some (1/5) else none
  match playerScore with
  | none => 0
  | some ps =>
    if !year.isEmpty && !(pyIn year title) then 0
    else
      let brandLower := pyLower brand
      if !brandLower.isEmpty && !(pyIn brandLower title) then 0
      else
        let numberScore : Q :=
          match cardNumber with
          | some c =>
            if c.isEmpty then 1/5
            else if pyIn c title || pyIn ('#' :: c) title
                || pyIn ("no. ".toList ++ c) title || pyIn ("card ".toList ++ c) title then 1/5
            else 0
          | none => 1/5
        ps + 1/5 + 1/5 + numberScore

/-- Stable insertion into a score-descending list: an element goes in front
of the first position whose score is `≤` its own (so, before later-arriving
equal scores), matching Python's stable `sort(reverse=True)`. -/
def insertByScore (x : ScoredItem) : List ScoredItem → List ScoredItem
  | [] => [x]
  | y :: ys => if Q.ble y.2 x.2 then x :: y :: ys else y :: insertByScore x ys

/-- Stable sort by relevance score, descending. -/
def sortByScore : List ScoredItem → List ScoredItem
  | [] => []
  | x :: xs => insertByScore x (sortByScore xs)

/-- `_filter_by_relevance`: keep items scoring at least `minScore`, attach the
score, sort by score descending. -/
def filterByRelevance (items : List Item) (year brand playerName : Str)
    (cardNumber : Option Str) (minScore : Q) : List ScoredItem :=
  sortByScore (items.filterMap (fun item =>
    let score := scoreResultRelevance item year brand playerName cardNumber
    if Q.ble minScore score then some (item, score) else none))

/-! ## Price aggregation (`_calculate_pricing`) -/

/-- The prices collected from the items (`price.value` when present and
truthy/parsable). -/
def collectPrices (items : List Item) : List Q := items.filterMap (fun it => it.price)

/-- Stable insertion into an ascending list. -/
def insertAsc (x : Q) : List Q → List Q
  | [] => [x]
  | y :: ys => if Q.ble x y then x :: y :: ys else y :: insertAsc x ys

/-- Python's `sorted` on prices (ascending insertion sort). -/
def sortPrices : List Q → List Q
  | [] => []
  | x :: xs => insertAsc x (sortPrices xs)

/-- `_calculate_pricing`. -/
def calculatePricing (items : List Item) : Pricing :=
  let allPrices := collectPrices items
  if allPrices.isEmpty then emptyPricing
  else
    let sp := sortPrices allPrices
    let n := sp.length
    let rep :=
      if n < 4 then sp
      else
        let slice := (sp.drop (n / 4)).take (3 * n / 4 - n / 4)
        if slice.length < min 10 (n / 2) then (sp.drop (n / 6)).take (5 * n / 6 - n / 6)
        else slice
    let median :=
      if n % 2 = 0 then (sp.getD (n / 2 - 1) 0 + sp.getD (n / 2) 0) / 2
      else sp.getD (n / 2) 0
    { minPrice := some (round2 (Q.listMin allPrices)),
      maxPrice := some (round2 (Q.listMax allPrices)),
      avgPrice := some (round2 (Q.listSum rep / Q.ofInt (rep.length : Int))),
      medianPrice := some (round2 median),
      count := allPrices.length,
      sampleSize := some rep.length,
      excludedLow := some (allPrices.length - sp.length
        + (if rep.isEmpty then 0 else sp.indexOf (rep.headD 0))),
      excludedHigh := some (sp.length - (if rep.isEmpty then 0 else sp.indexOf (rep.getLastD 0) + 1)),
      errorMsg := none }

/-! ## Cache, rate limiting, logging -/

/-- First-match lookup in the cache table (`search_query` is unique in the
database; a list models the table). -/
def cacheLookup : List (Str × CacheEntry) → Str → Option CacheEntry
  | [], _ => none
  | (k, e) :: rest, q => if k = q then some e else cacheLookup rest q

/-- Delete every row with the given key. -/
def cacheRemove : List (Str × CacheEntry) → Str → List (Str × CacheEntry)
  | [], _ => []
  | (k, e) :: rest, q => if k = q then cacheRemove rest q else (k, e) :: cacheRemove rest q

/-- Increment the hit counter of the first row with the given key. -/
def bumpHit : List (Str × CacheEntry) → Str → List (Str × CacheEntry)
  | [], _ => []
  | (k, e) :: rest, q =>
    if k = q then (k, { e with hitCount := e.hitCount + 1 }) :: rest
    else (k, e) :: bumpHit rest q

/-- `_get_cached_result` when a row exists: a fresh entry is a hit (counter
bumped), an expired entry is deleted and treated as a miss. -/
def getCachedHit (st : SvcState) (q : Str) (e : CacheEntry) : Option SearchResult × SvcState :=
  if st.now < e.expiresAt then (some e.resultData, { st with cache := bumpHit st.cache q })
  else (none, { st with cache := cacheRemove st.cache q })

/-- `_get_cached_result`. -/
def getCachedResult (st : SvcState) (q : Str) : Option SearchResult × SvcState :=
  match cacheLookup st.cache q with
  | some e => getCachedHit st q e
  | none => (none, st)

/-- `_cache_result`: replace any entry for the key, TTL one hour. -/
def cacheResult (q : Str) (r : SearchResult) (st : SvcState) : SvcState :=
  { st with cache := cacheRemove st.cache q
      ++ [(q, { resultData := r, createdAt := st.now, expiresAt := st.now + 3600, hitCount := 0 })] }

/-- `_log_api_call`: append-only. -/
def logApiCall (st : SvcState) (e : LogEntry) : SvcState :=
  { st with callLog := st.callLog ++ [e] }

/-- Build a `LogEntry` for the search endpoint. -/
def mkLog (q : Str) (cardId : Option Nat) (status : Nat) (itemsReturned : Nat)
    (cacheHit success : Bool) (errorMessage : Option Str) : LogEntry :=
  { endpoint := "browse/item_summary/search".toList, searchQuery := q, cardId := cardId,
    responseStatus := status, responseTimeMs := 0, itemsReturned := itemsReturned,
    cacheHit := cacheHit, success := success, errorMessage := errorMessage }

/-- The message of `_can_make_request` at quota. -/
def rateLimitMsg : Str := "Daily rate limit reached (5000 calls/day)".toList

/-- The warning message at or above 90% of quota. -/
def warnMsg (count : Nat) : Str :=
  "Warning: Approaching daily limit (".toList ++ natStr count ++ "/5000)".toList

/-- The all-clear message below 90% of quota. -/
def okMsg (count : Nat) : Str := "OK (".toList ++ natStr count ++ "/5000 calls today)".toList

/-- `_can_make_request` with the configured `daily_limit = 5000`
(`5000 * 0.9 = 4500` exactly). -/
def canMakeRequest (count : Nat) : Bool × Str :=
  if 5000 ≤ count then (false, rateLimitMsg)
  else if 4500 ≤ count then (true, warnMsg count)
  else (true, okMsg count)

/-! ## `search_card` -/

/-- Outcome of the shared front part of `search_card` (query construction,
cache probe, rate check, live call, relevance filtering). -/
inductive Phase1Out where
  | early (r : Except SvcError SearchResult)
  | proceed (query : Str) (filtered : List ScoredItem) (total : Nat)

/-- The front part of `search_card` is common to top-level and broadened
calls: build the query (which can raise before anything is logged), probe
the cache, check the rate budget, then perform the live Browse API call
(incrementing both the request counter and the network-call counter — the
source increments its counter as soon as the response returns) and filter
the items by relevance with `min_score=0.6`.  It is split into three
named segments, `searchPhase1` (query construction) → `searchPhase2` (cache
probe) → `searchPhase3` (rate check and live call), composed in that
order.  This segment is the rate check and live call. -/
def searchPhase3 (o : Oracle) (a : SearchArgs) (query : Str) (st1 : SvcState) :
    Phase1Out × SvcState :=
  let cm := canMakeRequest st1.requestCount
  if cm.1 then
    let resp := o query
    let st2 : SvcState :=
      { st1 with
        networkCalls := st1.networkCalls + 1
        requestCount := st1.requestCount + 1 }
    (.proceed query
      (filterByRelevance resp.1 a.year a.brand a.playerName a.cardNumber (Q.mk' 3 5))
      resp.2, st2)
  else
    (.early (.error (.oauth cm.2)),
     logApiCall st1 (mkLog query a.cardId 429 0 false false (some cm.2)))

/-- Cache-probe segment: a hit is logged (with the cache-hit flag) and
returned at once; a miss continues to the rate check and live call. -/
def searchPhase2 (o : Oracle) (a : SearchArgs) (query : Str) (st : SvcState) :
    Phase1Out × SvcState :=
  match getCachedResult st query with
  | (some r, st1) =>
    (.early (.ok r), logApiCall st1 (mkLog query a.cardId 200 r.totalResults true true none))
  | (none, st1) => searchPhase3 o a query st1

/-- Query-construction segment; an exception here (the dynamic-typing
`AttributeError`) escapes before anything is logged or counted. -/
def searchPhase1 (o : Oracle) (a : SearchArgs) (st : SvcState) : Phase1Out × SvcState :=
  match buildQuery a with
  | .error e => (.early (.error e), st)
  | .ok query => searchPhase2 o a query st

/-- The empty result dict built when no listing survives. -/
def emptySearchResult (q : Str) : SearchResult :=
  { searchQuery := q, totalResults := 0, items := [], pricing := emptyPricing,
    sampleImages := [] }

/-- Tail of `search_card` when no accepted listing remains: build the empty
result, log, return (nothing is cached). -/
def finishEmpty (q : Str) (cardId : Option Nat) (st : SvcState) :
    Except SvcError SearchResult × SvcState :=
  (.ok (emptySearchResult q), logApiCall st (mkLog q cardId 200 0 false true none))

/-- The result dict of a lookup with accepted listings: pricing over the
accepted items, sample images from the first 3, first 10 items returned. -/
def liveResult (q : Str) (filtered : List ScoredItem) (total : Nat) : SearchResult :=
  { searchQuery := q, totalResults := total, items := filtered.take 10,
    pricing := calculatePricing (filtered.map (fun x => x.1)),
    sampleImages := (filtered.take 3).filterMap (fun x => x.1.image) }

/-- `str(e)` of an exception value. -/
def errMsgOf : SvcError → Str
  | .oauth m => m
  | .attrError => "AttributeError".toList

/-- `str(e)` of the `TypeError` CPython raises when an f-string applies the
format spec `.2f` to `None` (`search_card`'s closing log statement when
`avg_price` is `None`). -/
def typeErrorMsg : Str :=
  "unsupported format string passed to NoneType.__format__".toList

/-- The `except Exception` handler of `search_card`: an exception with message
`msg` raised inside the `try` block is logged with status 0 and re-raised
wrapped in `eBayOAuthError("Search error: ...")`. -/
def wrapMsg (msg : Str) (q : Str) (cardId : Option Nat) (st : SvcState) :
    Except SvcError SearchResult × SvcState :=
  (.error (.oauth ("Search error: ".toList ++ msg)),
   logApiCall st (mkLog q cardId 0 0 false false (some msg)))

/-- An exception raised by a broadened recursive call is caught by the outer
`except Exception` handler: log it with status 0 and re-raise wrapped in
`eBayOAuthError("Search error: ...")`. -/
def wrapError (e : SvcError) (q : Str) (cardId : Option Nat) (st : SvcState) :
    Except SvcError SearchResult × SvcState :=
  wrapMsg (errMsgOf e) q cardId st

/-- Tail of `search_card` when accepted listings remain: compute pricing and
sample images, truncate to 10 items, cache, log — and then the closing
`logger.info(f"... avg price: $\x7bpricing['avg_price']:.2f\x7d")` runs.
When no accepted listing carries a usable price, `avg_price` is `None` and
the format spec raises `TypeError`; the `except Exception` handler writes a
second, status-0 log row and re-raises `eBayOAuthError("Search error: ...")`
— after the result was already cached and the success row already logged. -/
def finishWithItems (q : Str) (filtered : List ScoredItem) (total : Nat)
    (cardId : Option Nat) (st : SvcState) : Except SvcError SearchResult × SvcState :=
  match (liveResult q filtered total).pricing.avgPrice with
  | some _ =>
    (.ok (liveResult q filtered total),
     logApiCall (cacheResult q (liveResult q filtered total) st)
       (mkLog q cardId 200 total false true none))
  | none =>
    wrapMsg typeErrorMsg q cardId
      (logApiCall (cacheResult q (liveResult q filtered total) st)
        (mkLog q cardId 200 total false true none))

/-- `search_card` called with `_is_broadening=True`: identical to the
top-level call except that the broadening block is skipped. -/
def searchCardB (o : Oracle) (a : SearchArgs) (st : SvcState) :
    Except SvcError SearchResult × SvcState :=
  match searchPhase1 o a st with
  | (.early r, st1) => (r, st1)
  | (.proceed q filtered total, st1) =>
    if filtered.isEmpty then finishEmpty q a.cardId st1
    else finishWithItems q filtered total a.cardId st1

/-- The arguments of the Strategy-1 retry (drop the print-run term; keep
everything else, including the card number). -/
def dropNumbered (a : SearchArgs) : SearchArgs :=
  { a with numbered := none, manualQuery := none }

/-- The arguments of the Strategy-2 retry (drop variety and parallel; keep
the card number). -/
def dropVarietyParallel (a : SearchArgs) : SearchArgs :=
  { a with variety := .noneV, parallel := none, numbered := none, manualQuery := none }

/-- The progressive-broadening block of top-level `search_card`, entered on
zero accepted listings: Strategy 1 (if `numbered` is truthy) retries without
the print run; Strategy 2 is guarded by
`(variety or parallel) and not broader_result`, and since a completed
Strategy-1 call leaves `broader_result` bound to a (truthy) result dict even
when that retry found nothing, Strategy 2 only ever runs when Strategy 1 was
skipped.  A broadened result with `total_results > 0` is returned with an
annotation appended to its `search_query`; an exception inside a broadened
call is caught by the outer handler (`wrapError`). -/
def broadenAfterZero (o : Oracle) (a : SearchArgs) (q : Str) (st1 : SvcState) :
    Except SvcError SearchResult × SvcState :=
  if optTruthy a.numbered then
    match searchCardB o (dropNumbered a) st1 with
    | (.error e, st2) => wrapError e q a.cardId st2
    | (.ok br, st2) =>
      if 0 < br.totalResults then
        (.ok { br with searchQuery :=
            br.searchQuery ++ " (broadened: removed print run)".toList }, st2)
      else finishEmpty q a.cardId st2
  else if a.variety.truthy || optTruthy a.parallel then
    match searchCardB o (dropVarietyParallel a) st1 with
    | (.error e, st2) => wrapError e q a.cardId st2
    | (.ok br, st2) =>
      if 0 < br.totalResults then
        (.ok { br with searchQuery :=
            br.searchQuery ++ " (broadened: removed variety/parallel)".toList }, st2)
      else finishEmpty q a.cardId st2
  else finishEmpty q a.cardId st1

/-- Top-level `search_card` (`_is_broadening=False`). -/
def searchCard (o : Oracle) (a : SearchArgs) (st : SvcState) :
    Except SvcError SearchResult × SvcState :=
  match searchPhase1 o a st with
  | (.early r, st1) => (r, st1)
  | (.proceed q filtered total, st1) =>
    if filtered.isEmpty then broadenAfterZero o a q st1
    else finishWithItems q filtered total a.cardId st1

/-- The pricing dict `get_average_price` returns when `search_card` raises
`eBayOAuthError`. -/
def errorPricing (msg : Str) : Pricing := { emptyPricing with errorMsg := some msg }

/-- The `search_card` arguments produced by `get_average_price`'s call
`self.search_card(year, brand, player_name, card_number, card_id)`: the five
arguments are forwarded *positionally*, so `card_id` lands in
`search_card`'s fifth parameter `variety` (as an `int`, which is what
`models.py` declares and `backend/main.py` passes) and no `card_id` keyword
is forwarded at all. -/
def avgArgs (year brand playerName : Str) (cardNumber : Option Str) (cardId : Option Nat) :
    SearchArgs :=
  { year := year, brand := brand, playerName := playerName, cardNumber := cardNumber,
    variety := match cardId with
      | none => .noneV
      | some n => .intV n,
    parallel := none, autograph := false, graded := none, numbered := none,
    cardId := none, manualQuery := none }

/-- `get_average_price(year, brand, player_name, card_number, card_id)`.
`eBayOAuthError` is caught and turned into an error pricing dict; any other
exception (such as the `AttributeError` from `variety.lower()`) propagates. -/
def getAveragePrice (o : Oracle) (year brand playerName : Str) (cardNumber : Option Str)
    (cardId : Option Nat) (st : SvcState) : Except SvcError Pricing × SvcState :=
  match searchCard o (avgArgs year brand playerName cardNumber cardId) st with
  | (.ok r, st1) => (.ok r.pricing, st1)
  | (.error (.oauth m), st1) => (.ok (errorPricing m), st1)
  | (.error .attrError, st1) => (.error .attrError, st1)

/-- The `items` of a successful lookup. -/
def itemsOf : Except SvcError SearchResult → Option (List ScoredItem)
  | .ok r => some r.items
  | .error _ => none

/-- The `total_results` of a lookup, 0 on error. -/
def totalOf : Except SvcError SearchResult → Nat
  | .ok r => r.totalResults
  | .error _ => 0

/-- The `pricing` of a lookup. -/
def pricingOf : Except SvcError SearchResult → Option Pricing
  | .ok r => some r.pricing
  | .error _ => none

/-- The hit counter currently recorded for a key (0 when absent). -/
def hitCountOf (c : List (Str × CacheEntry)) (q : Str) : Nat :=
  match cacheLookup c q with
  | some e => e.hitCount
  | none => 0

/-! ## Specification-side derived quantities

These restate, over the embedding's own primitives, the quantities the
specification talks about; the theorems below relate `calculatePricing` and
`searchCard` to them. -/

/-- The interquartile (middle-half) slice of the sorted price list:
`sorted[n//4 : 3*n//4]`. -/
def iqrSlice (l : List Q) : List Q :=
  ((sortPrices l).drop ((sortPrices l).length / 4)).take
    (3 * (sortPrices l).length / 4 - (sortPrices l).length / 4)

/-- The standard even/odd median formula over a sorted list. -/
def medianOfSorted (sp : List Q) : Q :=
  if sp.length % 2 = 0 then (sp.getD (sp.length / 2 - 1) 0 + sp.getD (sp.length / 2) 0) / 2
  else sp.getD (sp.length / 2) 0

/-- Arithmetic mean of a price list. -/
def listMean (l : List Q) : Q := Q.listSum l / Q.ofInt (l.length : Int)

/-- The last-name token of a subject name, as the scorer computes it. -/
def lastNameOf (playerName : Str) : Str := (pyWords (pyLower playerName)).getLastD []

/-! ## Concrete scenarios

Concrete inputs used by the counterexample and witness theorems below. -/

/-- A fresh service state: empty cache and log, zero counters. -/
def st0 : SvcState :=
  { requestCount := 0, cache := [], callLog := [], networkCalls := 0, now := 0 }

/-- An oracle for which every query returns no items. -/
def oracleNone : Oracle := fun _ => ([], 0)

/-- A multi-item ("Lot") listing that names the player but not card 98. -/
def lotItem : Item :=
  { title := "1993 Topps Derek Jeter Lot".toList, price := some 10, image := none }

/-- An oracle returning just the lot listing. -/
def oracleLot : Oracle := fun _ => ([lotItem], 1)

/-- A fully matching listing for the 1993 Topps Derek Jeter #98 descriptor. -/
def goodItem : Item :=
  { title := "1993 Topps Derek Jeter #98".toList, price := some 12,
    image := some ("http://img".toList) }

/-- An oracle returning just the matching listing. -/
def oracleGood : Oracle := fun _ => ([goodItem], 1)

/-- A listing whose title mentions neither "Derek Jeter" nor "jeter". -/
def wrongPlayerItem : Item :=
  { title := "1993 Topps Mariano Rivera #98".toList, price := some 9, image := none }

/-- An item carrying only a price. -/
def itemOfPrice (p : Q) : Item := { title := [], price := some p, image := none }

/-- Items whose prices are the spec's outlier example `[5,5,6,6,7,500]`. -/
def itemsC4 : List Item :=
  [itemOfPrice 5, itemOfPrice 5, itemOfPrice 6, itemOfPrice 6, itemOfPrice 7, itemOfPrice 500]

/-- The C1 descriptor: serial numbering `05/49` together with a variant
(`Refractor`) and a card number. -/
def argsC1 : SearchArgs :=
  { year := "2020".toList, brand := "Topps".toList, playerName := "Mike Trout".toList,
    cardNumber := some ("27".toList), variety := .strV ("Refractor".toList), parallel := none,
    autograph := false, graded := none, numbered := some ("05/49".toList), cardId := none,
    manualQuery := none }

/-- The 1993 Topps Derek Jeter #98 descriptor. -/
def argsJeter98 : SearchArgs :=
  { year := "1993".toList, brand := "Topps".toList, playerName := "Derek Jeter".toList,
    cardNumber := some ("98".toList), variety := .noneV, parallel := none,
    autograph := false, graded := none, numbered := none, cardId := none, manualQuery := none }

/-- The 1993 Topps Derek Jeter descriptor without a card number. -/
def argsJeter : SearchArgs :=
  { year := "1993".toList, brand := "Topps".toList, playerName := "Derek Jeter".toList,
    cardNumber := none, variety := .noneV, parallel := none,
    autograph := false, graded := none, numbered := none, cardId := none, manualQuery := none }

/-- A state whose same-day counter is exactly at the 5000-call quota. -/
def stAtLimit : SvcState :=
  { requestCount := 5000, cache := [], callLog := [], networkCalls := 0, now := 0 }

/-! ## Basic lemmas about the string primitives -/

theorem isPrefixOf_append_self (t s : Str) : t.isPrefixOf (t ++ s) = true := by
  induction t with
  | nil => simp [List.isPrefixOf]
  | cons c cs ih => simp [List.isPrefixOf, ih]

theorem pyIn_nil (h : Str) : pyIn [] h = true := by
  unfold pyIn
  rw [List.any_eq_true]
  refine ⟨h, (List.mem_tails _ _).2 (List.suffix_refl _), ?_⟩
  simp [List.isPrefixOf]

theorem pyIn_self_append (t s : Str) : pyIn t (t ++ s) = true := by
  unfold pyIn
  rw [List.any_eq_true]
  exact ⟨t ++ s, (List.mem_tails _ _).2 (List.suffix_refl _), isPrefixOf_append_self t s⟩

theorem pyIn_append_right (t r s : Str) (h : pyIn t s = true) : pyIn t (r ++ s) = true := by
  unfold pyIn at h ⊢
  rw [List.any_eq_true] at h ⊢
  obtain ⟨x, hx, hp⟩ := h
  refine ⟨x, ?_, hp⟩
  rw [List.mem_tails] at hx ⊢
  exact hx.trans (List.suffix_append r s)

theorem pyIn_joinSpace_of_mem (t : Str) (l : List Str) (h : t ∈ l) :
    pyIn t (joinSpace l) = true := by
  induction l with
  | nil => cases h
  | cons x xs ih =>
    cases h with
    | head =>
      cases xs with
      | nil => simpa using pyIn_self_append t []
      | cons y ys => exact pyIn_self_append t (' ' :: joinSpace (y :: ys))
    | tail _ hmem =>
      cases xs with
      | nil => cases hmem
      | cons y ys =>
        show pyIn t (x ++ ' ' :: joinSpace (y :: ys)) = true
        have h2 : pyIn t (joinSpace (y :: ys)) = true := ih hmem
        have h3 : pyIn t ([' '] ++ joinSpace (y :: ys)) = true := pyIn_append_right _ _ _ h2
        exact pyIn_append_right _ _ _ h3

theorem mem_uniqueTermsAux (t : Str) (seen : List Str) (l : List Str)
    (hmem : t ∈ l) (hne : t ≠ []) (hseen : t ∉ seen) : t ∈ uniqueTermsAux seen l := by
  induction l generalizing seen with
  | nil => cases hmem
  | cons x xs ih =>
    unfold uniqueTermsAux
    by_cases hx : x ≠ [] ∧ x ∉ seen
    · rw [if_pos hx]
      cases hmem with
      | head => exact List.mem_cons_self _ _
      | tail _ hmem =>
        by_cases htx : t = x
        · subst htx; exact List.mem_cons_self _ _
        · exact List.mem_cons_of_mem _
            (ih (x :: seen) hmem (by intro hc; cases hc with
              | head => exact htx rfl
              | tail _ hc => exact hseen hc))
    · rw [if_neg hx]
      cases hmem with
      | head => exact absurd ⟨hne, hseen⟩ hx
      | tail _ hmem => exact ih seen hmem hseen

theorem mem_uniqueTerms (t : Str) (l : List Str) (hmem : t ∈ l) (hne : t ≠ []) :
    t ∈ uniqueTerms l :=
  mem_uniqueTermsAux t [] l hmem hne (by simp)

theorem mem_insertNew (x : Str) (l : List Str) (t : Str) :
    x ∈ insertNew l t ↔ x ∈ l ∨ x = t := by
  unfold insertNew
  by_cases h : t ∈ l
  · rw [if_pos h]
    constructor
    · exact Or.inl
    · rintro (hx | rfl)
      · exact hx
      · exact h
  · rw [if_neg h]
    simp

/-! ## Basic lemmas about sorting -/

theorem mem_insertByScore (x y : ScoredItem) (l : List ScoredItem) :
    x ∈ insertByScore y l ↔ x = y ∨ x ∈ l := by
  induction l with
  | nil => simp [insertByScore]
  | cons z zs ih =>
    unfold insertByScore
    by_cases h : Q.ble z.2 y.2 = true
    · rw [if_pos h]; simp
    · rw [if_neg h]
      simp only [List.mem_cons, ih]
      tauto

theorem mem_sortByScore (x : ScoredItem) (l : List ScoredItem) :
    x ∈ sortByScore l ↔ x ∈ l := by
  induction l with
  | nil => simp [sortByScore]
  | cons y ys ih =>
    unfold sortByScore
    rw [mem_insertByScore, ih]
    simp

theorem length_insertAsc (x : Q) (l : List Q) : (insertAsc x l).length = l.length + 1 := by
  induction l with
  | nil => rfl
  | cons y ys ih =>
    unfold insertAsc
    by_cases h : Q.ble x y = true
    · rw [if_pos h]; rfl
    · rw [if_neg h]; simp [ih]

theorem length_sortPrices (l : List Q) : (sortPrices l).length = l.length := by
  induction l with
  | nil => rfl
  | cons x xs ih =>
    unfold sortPrices
    rw [length_insertAsc, ih, List.length_cons]

/-! ## Basic lemmas about the cache table -/

theorem cacheLookup_nil (q : Str) : cacheLookup [] q = none := rfl

theorem cacheLookup_cons (pk : Str) (pe : CacheEntry) (rest : List (Str × CacheEntry))
    (q : Str) : cacheLookup ((pk, pe) :: rest) q = if pk = q then some pe else cacheLookup rest q :=
  rfl

theorem bumpHit_cons (pk : Str) (pe : CacheEntry) (rest : List (Str × CacheEntry)) (q : Str) :
    bumpHit ((pk, pe) :: rest) q =
      if pk = q then (pk, { pe with hitCount := pe.hitCount + 1 }) :: rest
      else (pk, pe) :: bumpHit rest q := rfl

theorem cacheRemove_cons (pk : Str) (pe : CacheEntry) (rest : List (Str × CacheEntry)) (q : Str) :
    cacheRemove ((pk, pe) :: rest) q =
      if pk = q then cacheRemove rest q else (pk, pe) :: cacheRemove rest q := rfl

theorem cacheLookup_bump_none (c : List (Str × CacheEntry)) (q k : Str)
    (h : cacheLookup c k = none) : cacheLookup (bumpHit c q) k = none := by
  induction c with
  | nil => rfl
  | cons p rest ih =>
    obtain ⟨pk, pe⟩ := p
    rw [cacheLookup_cons] at h
    rw [bumpHit_cons]
    by_cases hpk : pk = k
    · rw [if_pos hpk] at h; exact absurd h (by simp)
    · rw [if_neg hpk] at h
      by_cases hpq : pk = q
      · rw [if_pos hpq, cacheLookup_cons, if_neg hpk]; exact h
      · rw [if_neg hpq, cacheLookup_cons, if_neg hpk]; exact ih h

theorem cacheLookup_remove_none (c : List (Str × CacheEntry)) (q k : Str)
    (h : cacheLookup c k = none) : cacheLookup (cacheRemove c q) k = none := by
  induction c with
  | nil => rfl
  | cons p rest ih =>
    obtain ⟨pk, pe⟩ := p
    rw [cacheLookup_cons] at h
    rw [cacheRemove_cons]
    by_cases hpk : pk = k
    · rw [if_pos hpk] at h; exact absurd h (by simp)
    · rw [if_neg hpk] at h
      by_cases hpq : pk = q
      · rw [if_pos hpq]; exact ih h
      · rw [if_neg hpq, cacheLookup_cons, if_neg hpk]; exact ih h

theorem cacheLookup_remove_self (c : List (Str × CacheEntry)) (q : Str) :
    cacheLookup (cacheRemove c q) q = none := by
  induction c with
  | nil => rfl
  | cons p rest ih =>
    obtain ⟨pk, pe⟩ := p
    rw [cacheRemove_cons]
    by_cases hpq : pk = q
    · rw [if_pos hpq]; exact ih
    · rw [if_neg hpq, cacheLookup_cons, if_neg hpq]; exact ih

theorem cacheLookup_append_of_none (c1 c2 : List (Str × CacheEntry)) (k : Str)
    (h : cacheLookup c1 k = none) : cacheLookup (c1 ++ c2) k = cacheLookup c2 k := by
  induction c1 with
  | nil => rfl
  | cons p rest ih =>
    obtain ⟨pk, pe⟩ := p
    rw [cacheLookup_cons] at h
    rw [List.cons_append, cacheLookup_cons]
    by_cases hpk : pk = k
    · rw [if_pos hpk] at h; exact absurd h (by simp)
    · rw [if_neg hpk] at h
      rw [if_neg hpk]
      exact ih h

theorem cacheLookup_store (c : List (Str × CacheEntry)) (q : Str) (e : CacheEntry) :
    cacheLookup (cacheRemove c q ++ [(q, e)]) q = some e := by
  rw [cacheLookup_append_of_none _ _ _ (cacheLookup_remove_self c q)]
  rw [cacheLookup_cons, if_pos rfl]

theorem cacheLookup_store_ne (c : List (Str × CacheEntry)) (q k : Str) (e : CacheEntry)
    (hne : k ≠ q) (h : cacheLookup c k = none) :
    cacheLookup (cacheRemove c q ++ [(q, e)]) k = none := by
  rw [cacheLookup_append_of_none _ _ _ (cacheLookup_remove_none c q k h)]
  rw [cacheLookup_cons, if_neg (fun hc => hne hc.symm)]
  rfl

/-! ## Frame lemmas for the state operations -/

@[simp] theorem logApiCall_requestCount (st : SvcState) (e : LogEntry) :
    (logApiCall st e).requestCount = st.requestCount := rfl

@[simp] theorem logApiCall_networkCalls (st : SvcState) (e : LogEntry) :
    (logApiCall st e).networkCalls = st.networkCalls := rfl

@[simp] theorem logApiCall_cache (st : SvcState) (e : LogEntry) :
    (logApiCall st e).cache = st.cache := rfl

@[simp] theorem logApiCall_now (st : SvcState) (e : LogEntry) :
    (logApiCall st e).now = st.now := rfl

@[simp] theorem logApiCall_callLog (st : SvcState) (e : LogEntry) :
    (logApiCall st e).callLog = st.callLog ++ [e] := rfl

@[simp] theorem cacheResult_requestCount (q : Str) (r : SearchResult) (st : SvcState) :
    (cacheResult q r st).requestCount = st.requestCount := rfl

@[simp] theorem cacheResult_networkCalls (q : Str) (r : SearchResult) (st : SvcState) :
    (cacheResult q r st).networkCalls = st.networkCalls := rfl

@[simp] theorem cacheResult_callLog (q : Str) (r : SearchResult) (st : SvcState) :
    (cacheResult q r st).callLog = st.callLog := rfl

@[simp] theorem cacheResult_now (q : Str) (r : SearchResult) (st : SvcState) :
    (cacheResult q r st).now = st.now := rfl

@[simp] theorem cacheResult_cache (q : Str) (r : SearchResult) (st : SvcState) :
    (cacheResult q r st).cache = cacheRemove st.cache q
      ++ [(q, { resultData := r, createdAt := st.now, expiresAt := st.now + 3600,
                hitCount := 0 })] := rfl

@[simp] theorem mkLog_searchQuery (q : Str) (cardId : Option Nat) (status itemsReturned : Nat)
    (cacheHit success : Bool) (errorMessage : Option Str) :
    (mkLog q cardId status itemsReturned cacheHit success errorMessage).searchQuery = q := rfl

/-! ## Characterisation of `_can_make_request` and `_get_cached_result` -/

theorem canMakeRequest_lt (c : Nat) (h : c < 5000) : (canMakeRequest c).1 = true := by
  unfold canMakeRequest
  rw [if_neg (by omega)]
  by_cases h45 : 4500 ≤ c
  · rw [if_pos h45]
  · rw [if_neg h45]

theorem canMakeRequest_ge (c : Nat) (h : 5000 ≤ c) : canMakeRequest c = (false, rateLimitMsg) := by
  unfold canMakeRequest
  rw [if_pos h]

theorem canMakeRequest_warn (c : Nat) (h1 : 4500 ≤ c) (h2 : c < 5000) :
    canMakeRequest c = (true, warnMsg c) := by
  unfold canMakeRequest
  rw [if_neg (by omega), if_pos h1]

theorem getCachedResult_miss (st : SvcState) (q : Str)
    (h : cacheLookup st.cache q = none) : getCachedResult st q = (none, st) := by
  unfold getCachedResult
  rw [h]

theorem getCachedResult_hit (st : SvcState) (q : Str) (e : CacheEntry)
    (h : cacheLookup st.cache q = some e) (hf : st.now < e.expiresAt) :
    getCachedResult st q = (some e.resultData, { st with cache := bumpHit st.cache q }) := by
  unfold getCachedResult
  rw [h]
  show getCachedHit st q e = _
  unfold getCachedHit
  rw [if_pos hf]

theorem getCachedResult_expired (st : SvcState) (q : Str) (e : CacheEntry)
    (h : cacheLookup st.cache q = some e) (hf : ¬ st.now < e.expiresAt) :
    getCachedResult st q = (none, { st with cache := cacheRemove st.cache q }) := by
  unfold getCachedResult
  rw [h]
  show getCachedHit st q e = _
  unfold getCachedHit
  rw [if_neg hf]

theorem getCachedResult_frame (st : SvcState) (q : Str) :
    ((getCachedResult st q).2).callLog = st.callLog ∧
    ((getCachedResult st q).2).now = st.now ∧
    ((getCachedResult st q).2).networkCalls = st.networkCalls ∧
    ((getCachedResult st q).2).requestCount = st.requestCount := by
  cases hl : cacheLookup st.cache q with
  | none => rw [getCachedResult_miss st q hl]; exact ⟨rfl, rfl, rfl, rfl⟩
  | some e =>
    by_cases hf : st.now < e.expiresAt
    · rw [getCachedResult_hit st q e hl hf]; exact ⟨rfl, rfl, rfl, rfl⟩
    · rw [getCachedResult_expired st q e hl hf]; exact ⟨rfl, rfl, rfl, rfl⟩

theorem getCachedResult_cache_none (st : SvcState) (q k : Str)
    (h : cacheLookup st.cache k = none) :
    cacheLookup ((getCachedResult st q).2).cache k = none := by
  cases hl : cacheLookup st.cache q with
  | none => rw [getCachedResult_miss st q hl]; exact h
  | some e =>
    by_cases hf : st.now < e.expiresAt
    · rw [getCachedResult_hit st q e hl hf]; exact cacheLookup_bump_none _ _ _ h
    · rw [getCachedResult_expired st q e hl hf]; exact cacheLookup_remove_none _ _ _ h

/-! ## Characterisation of the `searchPhase` segments -/

theorem searchPhase1_err (o : Oracle) (a : SearchArgs) (st : SvcState) (e : SvcError)
    (h : buildQuery a = .error e) : searchPhase1 o a st = (.early (.error e), st) := by
  unfold searchPhase1
  rw [h]

theorem searchPhase1_ok (o : Oracle) (a : SearchArgs) (st : SvcState) (q : Str)
    (hq : buildQuery a = .ok q) : searchPhase1 o a st = searchPhase2 o a q st := by
  unfold searchPhase1
  rw [hq]

theorem searchPhase2_hit (o : Oracle) (a : SearchArgs) (q : Str) (st : SvcState) (e : CacheEntry)
    (hhit : cacheLookup st.cache q = some e) (hf : st.now < e.expiresAt) :
    searchPhase2 o a q st = (.early (.ok e.resultData),
      logApiCall { st with cache := bumpHit st.cache q }
        (mkLog q a.cardId 200 e.resultData.totalResults true true none)) := by
  unfold searchPhase2
  rw [getCachedResult_hit st q e hhit hf]

theorem searchPhase2_miss (o : Oracle) (a : SearchArgs) (q : Str) (st : SvcState)
    (hmiss : cacheLookup st.cache q = none) :
    searchPhase2 o a q st = searchPhase3 o a q st := by
  unfold searchPhase2
  rw [getCachedResult_miss st q hmiss]

theorem searchPhase2_expired (o : Oracle) (a : SearchArgs) (q : Str) (st : SvcState)
    (e : CacheEntry) (hhit : cacheLookup st.cache q = some e) (hf : ¬ st.now < e.expiresAt) :
    searchPhase2 o a q st = searchPhase3 o a q { st with cache := cacheRemove st.cache q } := by
  unfold searchPhase2
  rw [getCachedResult_expired st q e hhit hf]

theorem searchPhase3_live (o : Oracle) (a : SearchArgs) (q : Str) (st1 : SvcState)
    (hrate : st1.requestCount < 5000) :
    searchPhase3 o a q st1 =
      (.proceed q (filterByRelevance (o q).1 a.year a.brand a.playerName a.cardNumber (Q.mk' 3 5))
        (o q).2,
       { st1 with networkCalls := st1.networkCalls + 1, requestCount := st1.requestCount + 1 }) := by
  unfold searchPhase3
  simp only [canMakeRequest_lt st1.requestCount hrate, if_true]

theorem searchPhase3_limited (o : Oracle) (a : SearchArgs) (q : Str) (st1 : SvcState)
    (hrate : 5000 ≤ st1.requestCount) :
    searchPhase3 o a q st1 = (.early (.error (.oauth rateLimitMsg)),
      logApiCall st1 (mkLog q a.cardId 429 0 false false (some rateLimitMsg))) := by
  unfold searchPhase3
  simp only [canMakeRequest_ge st1.requestCount hrate, Bool.false_eq_true, if_false]

theorem searchPhase1_miss_live (o : Oracle) (a : SearchArgs) (st : SvcState) (q : Str)
    (hq : buildQuery a = .ok q) (hmiss : cacheLookup st.cache q = none)
    (hrate : st.requestCount < 5000) :
    searchPhase1 o a st =
      (.proceed q (filterByRelevance (o q).1 a.year a.brand a.playerName a.cardNumber (Q.mk' 3 5))
        (o q).2,
       { st with networkCalls := st.networkCalls + 1, requestCount := st.requestCount + 1 }) := by
  rw [searchPhase1_ok o a st q hq, searchPhase2_miss o a q st hmiss,
    searchPhase3_live o a q st hrate]

theorem searchPhase1_miss_limited (o : Oracle) (a : SearchArgs) (st : SvcState) (q : Str)
    (hq : buildQuery a = .ok q) (hmiss : cacheLookup st.cache q = none)
    (hrate : 5000 ≤ st.requestCount) :
    searchPhase1 o a st = (.early (.error (.oauth rateLimitMsg)),
      logApiCall st (mkLog q a.cardId 429 0 false false (some rateLimitMsg))) := by
  rw [searchPhase1_ok o a st q hq, searchPhase2_miss o a q st hmiss,
    searchPhase3_limited o a q st hrate]

/-- Everything a `.proceed` outcome of the front segments reveals: the query
comes from `buildQuery`, the accepted listings are the relevance-filtered
oracle items, and the state has gained exactly one request and one network
call (the call log and the clock are untouched; the cache can only have
lost an expired row). -/
theorem searchPhase1_proceed_inv (o : Oracle) (a : SearchArgs) (st : SvcState)
    (q : Str) (f : List ScoredItem) (t : Nat) (st1 : SvcState)
    (h : searchPhase1 o a st = (.proceed q f t, st1)) :
    buildQuery a = .ok q ∧
    f = filterByRelevance (o q).1 a.year a.brand a.playerName a.cardNumber (Q.mk' 3 5) ∧
    t = (o q).2 ∧
    st1.callLog = st.callLog ∧ st1.now = st.now ∧
    st1.networkCalls = st.networkCalls + 1 ∧ st1.requestCount = st.requestCount + 1 := by
  cases hbq : buildQuery a with
  | error e =>
    rw [searchPhase1_err o a st e hbq] at h
    exact absurd h (by simp)
  | ok query =>
    rw [searchPhase1_ok o a st query hbq] at h
    cases hl : cacheLookup st.cache query with
    | some e =>
      by_cases hf : st.now < e.expiresAt
      · rw [searchPhase2_hit o a query st e hl hf] at h
        exact absurd h (by simp)
      · rw [searchPhase2_expired o a query st e hl hf] at h
        by_cases hr : st.requestCount < 5000
        · rw [searchPhase3_live o a query { st with cache := cacheRemove st.cache query } hr]
            at h
          simp only [Prod.mk.injEq, Phase1Out.proceed.injEq] at h
          obtain ⟨⟨hq1, hf1, ht1⟩, hst⟩ := h
          subst hq1
          refine ⟨rfl, hf1.symm, ht1.symm, ?_, ?_, ?_, ?_⟩ <;> rw [← hst]
        · rw [searchPhase3_limited o a query { st with cache := cacheRemove st.cache query }
            (Nat.le_of_not_lt hr)] at h
          exact absurd h (by simp)
    | none =>
      rw [searchPhase2_miss o a query st hl] at h
      by_cases hr : st.requestCount < 5000
      · rw [searchPhase3_live o a query st hr] at h
        simp only [Prod.mk.injEq, Phase1Out.proceed.injEq] at h
        obtain ⟨⟨hq1, hf1, ht1⟩, hst⟩ := h
        subst hq1
        refine ⟨rfl, hf1.symm, ht1.symm, ?_, ?_, ?_, ?_⟩ <;> rw [← hst]
      · rw [searchPhase3_limited o a query st (Nat.le_of_not_lt hr)] at h
        exact absurd h (by simp)

/-- Every row the front segments append to the call log carries the built
query as its `search_query`. -/
theorem searchPhase1_log (o : Oracle) (a : SearchArgs) (st : SvcState) :
    ∀ e ∈ ((searchPhase1 o a st).2).callLog,
      e ∈ st.callLog ∨ ∃ q, buildQuery a = .ok q ∧ e.searchQuery = q := by
  intro e he
  cases hbq : buildQuery a with
  | error er =>
    rw [searchPhase1_err o a st er hbq] at he
    exact Or.inl he
  | ok query =>
    rw [searchPhase1_ok o a st query hbq] at he
    cases hl : cacheLookup st.cache query with
    | some en =>
      by_cases hf : st.now < en.expiresAt
      · rw [searchPhase2_hit o a query st en hl hf] at he
        simp only [logApiCall_callLog, List.mem_append, List.mem_singleton] at he
        cases he with
        | inl hmem => exact Or.inl hmem
        | inr heq => exact Or.inr ⟨query, rfl, by rw [heq]; rfl⟩
      · rw [searchPhase2_expired o a query st en hl hf] at he
        by_cases hr : st.requestCount < 5000
        · rw [searchPhase3_live o a query { st with cache := cacheRemove st.cache query } hr]
            at he
          exact Or.inl he
        · rw [searchPhase3_limited o a query { st with cache := cacheRemove st.cache query }
            (Nat.le_of_not_lt hr)] at he
          simp only [logApiCall_callLog, List.mem_append, List.mem_singleton] at he
          cases he with
          | inl hmem => exact Or.inl hmem
          | inr heq => exact Or.inr ⟨query, rfl, by rw [heq]; rfl⟩
    | none =>
      rw [searchPhase2_miss o a query st hl] at he
      by_cases hr : st.requestCount < 5000
      · rw [searchPhase3_live o a query st hr] at he
        exact Or.inl he
      · rw [searchPhase3_limited o a query st (Nat.le_of_not_lt hr)] at he
        simp only [logApiCall_callLog, List.mem_append, List.mem_singleton] at he
        cases he with
        | inl hmem => exact Or.inl hmem
        | inr heq => exact Or.inr ⟨query, rfl, by rw [heq]; rfl⟩

/-- The front segments increase the network-call counter by at most one, and
never decrease it; likewise for the request counter. -/
theorem searchPhase1_counters (o : Oracle) (a : SearchArgs) (st : SvcState) :
    st.networkCalls ≤ ((searchPhase1 o a st).2).networkCalls ∧
    ((searchPhase1 o a st).2).networkCalls ≤ st.networkCalls + 1 ∧
    st.requestCount ≤ ((searchPhase1 o a st).2).requestCount ∧
    ((searchPhase1 o a st).2).requestCount ≤ st.requestCount + 1 := by
  cases hbq : buildQuery a with
  | error er =>
    rw [searchPhase1_err o a st er hbq]
    exact ⟨Nat.le_refl _, Nat.le_succ _, Nat.le_refl _, Nat.le_succ _⟩
  | ok query =>
    rw [searchPhase1_ok o a st query hbq]
    cases hl : cacheLookup st.cache query with
    | some en =>
      by_cases hf : st.now < en.expiresAt
      · rw [searchPhase2_hit o a query st en hl hf]
        exact ⟨Nat.le_refl _, Nat.le_succ _, Nat.le_refl _, Nat.le_succ _⟩
      · rw [searchPhase2_expired o a query st en hl hf]
        by_cases hr : st.requestCount < 5000
        · rw [searchPhase3_live o a query { st with cache := cacheRemove st.cache query } hr]
          exact ⟨Nat.le_succ _, Nat.le_refl _, Nat.le_succ _, Nat.le_refl _⟩
        · rw [searchPhase3_limited o a query { st with cache := cacheRemove st.cache query }
            (Nat.le_of_not_lt hr)]
          exact ⟨Nat.le_refl _, Nat.le_succ _, Nat.le_refl _, Nat.le_succ _⟩
    | none =>
      rw [searchPhase2_miss o a query st hl]
      by_cases hr : st.requestCount < 5000
      · rw [searchPhase3_live o a query st hr]
        exact ⟨Nat.le_succ _, Nat.le_refl _, Nat.le_succ _, Nat.le_refl _⟩
      · rw [searchPhase3_limited o a query st (Nat.le_of_not_lt hr)]
        exact ⟨Nat.le_refl _, Nat.le_succ _, Nat.le_refl _, Nat.le_succ _⟩

/-- The front segments never create a cache row for a key that had none. -/
theorem searchPhase1_cache_none (o : Oracle) (a : SearchArgs) (st : SvcState) (k : Str)
    (h : cacheLookup st.cache k = none) :
    cacheLookup ((searchPhase1 o a st).2).cache k = none := by
  cases hbq : buildQuery a with
  | error er =>
    rw [searchPhase1_err o a st er hbq]
    exact h
  | ok query =>
    rw [searchPhase1_ok o a st query hbq]
    cases hl : cacheLookup st.cache query with
    | some en =>
      by_cases hf : st.now < en.expiresAt
      · rw [searchPhase2_hit o a query st en hl hf]
        exact cacheLookup_bump_none _ _ _ h
      · rw [searchPhase2_expired o a query st en hl hf]
        by_cases hr : st.requestCount < 5000
        · rw [searchPhase3_live o a query { st with cache := cacheRemove st.cache query } hr]
          exact cacheLookup_remove_none _ _ _ h
        · rw [searchPhase3_limited o a query { st with cache := cacheRemove st.cache query }
            (Nat.le_of_not_lt hr)]
          exact cacheLookup_remove_none _ _ _ h
    | none =>
      rw [searchPhase2_miss o a query st hl]
      by_cases hr : st.requestCount < 5000
      · rw [searchPhase3_live o a query st hr]
        exact h
      · rw [searchPhase3_limited o a query st (by omega)]
        exact h

/-! ## Characterisation of `searchCardB`, `broadenAfterZero`, `searchCard` -/

theorem searchCardB_early (o : Oracle) (a : SearchArgs) (st : SvcState)
    (r : Except SvcError SearchResult) (st1 : SvcState)
    (h : searchPhase1 o a st = (.early r, st1)) : searchCardB o a st = (r, st1) := by
  unfold searchCardB
  rw [h]

theorem searchCard_early (o : Oracle) (a : SearchArgs) (st : SvcState)
    (r : Except SvcError SearchResult) (st1 : SvcState)
    (h : searchPhase1 o a st = (.early r, st1)) : searchCard o a st = (r, st1) := by
  unfold searchCard
  rw [h]

theorem searchCardB_proceed (o : Oracle) (a : SearchArgs) (st : SvcState)
    (q : Str) (f : List ScoredItem) (t : Nat) (st1 : SvcState)
    (h : searchPhase1 o a st = (.proceed q f t, st1)) :
    searchCardB o a st =
      if f.isEmpty then finishEmpty q a.cardId st1 else finishWithItems q f t a.cardId st1 := by
  unfold searchCardB
  rw [h]

theorem searchCard_proceed (o : Oracle) (a : SearchArgs) (st : SvcState)
    (q : Str) (f : List ScoredItem) (t : Nat) (st1 : SvcState)
    (h : searchPhase1 o a st = (.proceed q f t, st1)) :
    searchCard o a st =
      if f.isEmpty then broadenAfterZero o a q st1
      else finishWithItems q f t a.cardId st1 := by
  unfold searchCard
  rw [h]

/-! ## Frame lemmas for the tail segments -/

@[simp] theorem finishEmpty_networkCalls (q : Str) (cid : Option Nat) (st : SvcState) :
    ((finishEmpty q cid st).2).networkCalls = st.networkCalls := rfl

@[simp] theorem finishEmpty_requestCount (q : Str) (cid : Option Nat) (st : SvcState) :
    ((finishEmpty q cid st).2).requestCount = st.requestCount := rfl

@[simp] theorem finishEmpty_cache (q : Str) (cid : Option Nat) (st : SvcState) :
    ((finishEmpty q cid st).2).cache = st.cache := rfl

@[simp] theorem finishEmpty_callLog (q : Str) (cid : Option Nat) (st : SvcState) :
    ((finishEmpty q cid st).2).callLog = st.callLog ++ [mkLog q cid 200 0 false true none] := rfl

/-- When the accepted listings carry at least one usable price, `avg_price`
is not `None`, the closing log statement succeeds and the result is
returned. -/
theorem finishWithItems_priced (q : Str) (f : List ScoredItem) (t : Nat)
    (cid : Option Nat) (st : SvcState) (p : Q)
    (hp : (liveResult q f t).pricing.avgPrice = some p) :
    finishWithItems q f t cid st =
      (.ok (liveResult q f t),
       logApiCall (cacheResult q (liveResult q f t) st)
         (mkLog q cid 200 t false true none)) := by
  unfold finishWithItems
  rw [hp]

/-- When no accepted listing carries a usable price, the closing log
statement raises `TypeError` after the cache write and the success log row;
the handler logs a second row and re-raises. -/
theorem finishWithItems_unpriced (q : Str) (f : List ScoredItem) (t : Nat)
    (cid : Option Nat) (st : SvcState)
    (hp : (liveResult q f t).pricing.avgPrice = none) :
    finishWithItems q f t cid st =
      wrapMsg typeErrorMsg q cid
        (logApiCall (cacheResult q (liveResult q f t) st)
          (mkLog q cid 200 t false true none)) := by
  unfold finishWithItems
  rw [hp]

@[simp] theorem finishWithItems_networkCalls (q : Str) (f : List ScoredItem) (t : Nat)
    (cid : Option Nat) (st : SvcState) :
    ((finishWithItems q f t cid st).2).networkCalls = st.networkCalls := by
  unfold finishWithItems
  cases (liveResult q f t).pricing.avgPrice <;> rfl

@[simp] theorem finishWithItems_requestCount (q : Str) (f : List ScoredItem) (t : Nat)
    (cid : Option Nat) (st : SvcState) :
    ((finishWithItems q f t cid st).2).requestCount = st.requestCount := by
  unfold finishWithItems
  cases (liveResult q f t).pricing.avgPrice <;> rfl

@[simp] theorem finishWithItems_cache (q : Str) (f : List ScoredItem) (t : Nat)
    (cid : Option Nat) (st : SvcState) :
    ((finishWithItems q f t cid st).2).cache = cacheRemove st.cache q
      ++ [(q, { resultData := liveResult q f t, createdAt := st.now,
                expiresAt := st.now + 3600, hitCount := 0 })] := by
  unfold finishWithItems
  cases (liveResult q f t).pricing.avgPrice <;> rfl

theorem finishWithItems_log (q : Str) (f : List ScoredItem) (t : Nat)
    (cid : Option Nat) (st : SvcState) :
    ∀ e ∈ ((finishWithItems q f t cid st).2).callLog,
      e ∈ st.callLog ∨ e.searchQuery = q := by
  unfold finishWithItems
  cases (liveResult q f t).pricing.avgPrice with
  | some p =>
    intro e he
    rcases List.mem_append.1 he with hmem | hmem
    · exact Or.inl hmem
    · rw [List.mem_singleton] at hmem
      exact Or.inr (by rw [hmem]; rfl)
  | none =>
    intro e he
    rcases List.mem_append.1 he with hmem | hmem
    · rcases List.mem_append.1 hmem with hmem2 | hmem2
      · exact Or.inl hmem2
      · rw [List.mem_singleton] at hmem2
        exact Or.inr (by rw [hmem2]; rfl)
    · rw [List.mem_singleton] at hmem
      exact Or.inr (by rw [hmem]; rfl)

@[simp] theorem wrapMsg_networkCalls (m : Str) (q : Str) (cid : Option Nat)
    (st : SvcState) : ((wrapMsg m q cid st).2).networkCalls = st.networkCalls := rfl

@[simp] theorem wrapMsg_requestCount (m : Str) (q : Str) (cid : Option Nat)
    (st : SvcState) : ((wrapMsg m q cid st).2).requestCount = st.requestCount := rfl

@[simp] theorem wrapMsg_cache (m : Str) (q : Str) (cid : Option Nat)
    (st : SvcState) : ((wrapMsg m q cid st).2).cache = st.cache := rfl

@[simp] theorem wrapMsg_callLog (m : Str) (q : Str) (cid : Option Nat) (st : SvcState) :
    ((wrapMsg m q cid st).2).callLog
      = st.callLog ++ [mkLog q cid 0 0 false false (some m)] := rfl

@[simp] theorem wrapError_networkCalls (e : SvcError) (q : Str) (cid : Option Nat)
    (st : SvcState) : ((wrapError e q cid st).2).networkCalls = st.networkCalls := rfl

@[simp] theorem wrapError_requestCount (e : SvcError) (q : Str) (cid : Option Nat)
    (st : SvcState) : ((wrapError e q cid st).2).requestCount = st.requestCount := rfl

@[simp] theorem wrapError_cache (e : SvcError) (q : Str) (cid : Option Nat)
    (st : SvcState) : ((wrapError e q cid st).2).cache = st.cache := rfl

@[simp] theorem wrapError_callLog (e : SvcError) (q : Str) (cid : Option Nat) (st : SvcState) :
    ((wrapError e q cid st).2).callLog
      = st.callLog ++ [mkLog q cid 0 0 false false (some (errMsgOf e))] := rfl

/-! ## `searchCardB`: counters, log entries, cache keys -/

theorem searchCardB_counters (o : Oracle) (a : SearchArgs) (st : SvcState) :
    st.networkCalls ≤ ((searchCardB o a st).2).networkCalls ∧
    ((searchCardB o a st).2).networkCalls ≤ st.networkCalls + 1 ∧
    st.requestCount ≤ ((searchCardB o a st).2).requestCount ∧
    ((searchCardB o a st).2).requestCount ≤ st.requestCount + 1 := by
  rcases hp : searchPhase1 o a st with ⟨out, st1⟩
  have hc := searchPhase1_counters o a st
  rw [hp] at hc
  cases out with
  | early r => rw [searchCardB_early o a st r st1 hp]; exact hc
  | proceed q f t =>
    rw [searchCardB_proceed o a st q f t st1 hp]
    by_cases hf : f.isEmpty
    · rw [if_pos hf]; simpa using hc
    · rw [if_neg hf]; simpa using hc

theorem searchCardB_log (o : Oracle) (a : SearchArgs) (st : SvcState) :
    ∀ e ∈ ((searchCardB o a st).2).callLog,
      e ∈ st.callLog ∨ ∃ q, buildQuery a = .ok q ∧ e.searchQuery = q := by
  intro e he
  rcases hp : searchPhase1 o a st with ⟨out, st1⟩
  have hl := searchPhase1_log o a st
  rw [hp] at hl
  cases out with
  | early r =>
    rw [searchCardB_early o a st r st1 hp] at he
    exact hl e he
  | proceed q f t =>
    obtain ⟨hq, -, -, hlog, -, -, -⟩ := searchPhase1_proceed_inv o a st q f t st1 hp
    rw [searchCardB_proceed o a st q f t st1 hp] at he
    by_cases hf : f.isEmpty
    · rw [if_pos hf] at he
      rw [finishEmpty_callLog, hlog] at he
      rcases List.mem_append.1 he with hmem | hmem
      · exact Or.inl hmem
      · rw [List.mem_singleton] at hmem
        exact Or.inr ⟨q, hq, by rw [hmem]; rfl⟩
    · rw [if_neg hf] at he
      rcases finishWithItems_log q f t a.cardId st1 e he with hmem | hqq
      · rw [hlog] at hmem
        exact Or.inl hmem
      · exact Or.inr ⟨q, hq, hqq⟩

theorem searchCardB_cache_none (o : Oracle) (a : SearchArgs) (st : SvcState) (k : Str)
    (h : cacheLookup st.cache k = none)
    (hno : buildQuery a = .ok k →
      filterByRelevance (o k).1 a.year a.brand a.playerName a.cardNumber (Q.mk' 3 5) = []) :
    cacheLookup ((searchCardB o a st).2).cache k = none := by
  rcases hp : searchPhase1 o a st with ⟨out, st1⟩
  have hcn := searchPhase1_cache_none o a st k h
  rw [hp] at hcn
  cases out with
  | early r =>
    rw [searchCardB_early o a st r st1 hp]
    exact hcn
  | proceed q f t =>
    obtain ⟨hq, hfchar, -, -, -, -, -⟩ := searchPhase1_proceed_inv o a st q f t st1 hp
    rw [searchCardB_proceed o a st q f t st1 hp]
    by_cases hfe : f.isEmpty
    · rw [if_pos hfe]
      rw [finishEmpty_cache]
      exact hcn
    · rw [if_neg hfe]
      by_cases hqk : q = k
      · subst hqk
        rw [hno hq] at hfchar
        rw [hfchar] at hfe
        exact absurd rfl hfe
      · rw [finishWithItems_cache]
        exact cacheLookup_store_ne st1.cache q k _ (fun hkq => hqk hkq.symm) hcn

/-! ## `broadenAfterZero` and `searchCard`: counters and log entries -/

theorem broadenAfterZero_counters (o : Oracle) (a : SearchArgs) (q : Str) (st1 : SvcState) :
    st1.networkCalls ≤ ((broadenAfterZero o a q st1).2).networkCalls ∧
    ((broadenAfterZero o a q st1).2).networkCalls ≤ st1.networkCalls + 1 ∧
    st1.requestCount ≤ ((broadenAfterZero o a q st1).2).requestCount ∧
    ((broadenAfterZero o a q st1).2).requestCount ≤ st1.requestCount + 1 := by
  unfold broadenAfterZero
  by_cases hn : optTruthy a.numbered = true
  · rw [if_pos hn]
    rcases hB : searchCardB o (dropNumbered a) st1 with ⟨res, st2⟩
    have hc := searchCardB_counters o (dropNumbered a) st1
    rw [hB] at hc
    cases res with
    | error e => dsimp only; simpa using hc
    | ok br =>
      dsimp only
      by_cases hbr : 0 < br.totalResults
      · rw [if_pos hbr]; exact hc
      · rw [if_neg hbr]; simpa using hc
  · rw [if_neg hn]
    by_cases hv : (a.variety.truthy || optTruthy a.parallel) = true
    · rw [if_pos hv]
      rcases hB : searchCardB o (dropVarietyParallel a) st1 with ⟨res, st2⟩
      have hc := searchCardB_counters o (dropVarietyParallel a) st1
      rw [hB] at hc
      cases res with
      | error e => dsimp only; simpa using hc
      | ok br =>
        dsimp only
        by_cases hbr : 0 < br.totalResults
        · rw [if_pos hbr]; exact hc
        · rw [if_neg hbr]; simpa using hc
    · rw [if_neg hv]
      simp

theorem broadenAfterZero_log (o : Oracle) (a : SearchArgs) (q : Str) (st1 : SvcState) :
    ∀ e ∈ ((broadenAfterZero o a q st1).2).callLog,
      e ∈ st1.callLog ∨ e.searchQuery = q ∨
      (∃ q1, buildQuery (dropNumbered a) = .ok q1 ∧ e.searchQuery = q1) ∨
      (∃ q2, buildQuery (dropVarietyParallel a) = .ok q2 ∧ e.searchQuery = q2) := by
  intro e he
  unfold broadenAfterZero at he
  by_cases hn : optTruthy a.numbered = true
  · rw [if_pos hn] at he
    rcases hB : searchCardB o (dropNumbered a) st1 with ⟨res, st2⟩
    have hl := searchCardB_log o (dropNumbered a) st1
    rw [hB] at hl
    rw [hB] at he
    have hsub : ∀ x, x ∈ st2.callLog →
        x ∈ st1.callLog ∨ x.searchQuery = q ∨
        (∃ q1, buildQuery (dropNumbered a) = .ok q1 ∧ x.searchQuery = q1) ∨
        (∃ q2, buildQuery (dropVarietyParallel a) = .ok q2 ∧ x.searchQuery = q2) := by
      intro x hx
      rcases hl x hx with hx1 | ⟨q1, hq1, hx2⟩
      · exact Or.inl hx1
      · exact Or.inr (Or.inr (Or.inl ⟨q1, hq1, hx2⟩))
    cases res with
    | error er =>
      dsimp only at he
      rw [wrapError_callLog] at he
      rcases List.mem_append.1 he with hmem | hmem
      · exact hsub e hmem
      · rw [List.mem_singleton] at hmem
        exact Or.inr (Or.inl (by rw [hmem]; rfl))
    | ok br =>
      dsimp only at he
      by_cases hbr : 0 < br.totalResults
      · rw [if_pos hbr] at he
        exact hsub e he
      · rw [if_neg hbr] at he
        rw [finishEmpty_callLog] at he
        rcases List.mem_append.1 he with hmem | hmem
        · exact hsub e hmem
        · rw [List.mem_singleton] at hmem
          exact Or.inr (Or.inl (by rw [hmem]; rfl))
  · rw [if_neg hn] at he
    by_cases hv : (a.variety.truthy || optTruthy a.parallel) = true
    · rw [if_pos hv] at he
      rcases hB : searchCardB o (dropVarietyParallel a) st1 with ⟨res, st2⟩
      have hl := searchCardB_log o (dropVarietyParallel a) st1
      rw [hB] at hl
      rw [hB] at he
      have hsub : ∀ x, x ∈ st2.callLog →
          x ∈ st1.callLog ∨ x.searchQuery = q ∨
          (∃ q1, buildQuery (dropNumbered a) = .ok q1 ∧ x.searchQuery = q1) ∨
          (∃ q2, buildQuery (dropVarietyParallel a) = .ok q2 ∧ x.searchQuery = q2) := by
        intro x hx
        rcases hl x hx with hx1 | ⟨q2, hq2, hx2⟩
        · exact Or.inl hx1
        · exact Or.inr (Or.inr (Or.inr ⟨q2, hq2, hx2⟩))
      cases res with
      | error er =>
        dsimp only at he
        rw [wrapError_callLog] at he
        rcases List.mem_append.1 he with hmem | hmem
        · exact hsub e hmem
        · rw [List.mem_singleton] at hmem
          exact Or.inr (Or.inl (by rw [hmem]; rfl))
      | ok br =>
        dsimp only at he
        by_cases hbr : 0 < br.totalResults
        · rw [if_pos hbr] at he
          exact hsub e he
        · rw [if_neg hbr] at he
          rw [finishEmpty_callLog] at he
          rcases List.mem_append.1 he with hmem | hmem
          · exact hsub e hmem
          · rw [List.mem_singleton] at hmem
            exact Or.inr (Or.inl (by rw [hmem]; rfl))
    · rw [if_neg hv] at he
      rw [finishEmpty_callLog] at he
      rcases List.mem_append.1 he with hmem | hmem
      · exact Or.inl hmem
      · rw [List.mem_singleton] at hmem
        exact Or.inr (Or.inl (by rw [hmem]; rfl))

theorem searchCard_counters (o : Oracle) (a : SearchArgs) (st : SvcState) :
    st.networkCalls ≤ ((searchCard o a st).2).networkCalls ∧
    ((searchCard o a st).2).networkCalls ≤ st.networkCalls + 2 ∧
    st.requestCount ≤ ((searchCard o a st).2).requestCount ∧
    ((searchCard o a st).2).requestCount ≤ st.requestCount + 2 := by
  rcases hp : searchPhase1 o a st with ⟨out, st1⟩
  have hc := searchPhase1_counters o a st
  rw [hp] at hc
  dsimp only at hc
  cases out with
  | early r =>
    rw [searchCard_early o a st r st1 hp]
    exact ⟨hc.1, Nat.le_trans hc.2.1 (by omega), hc.2.2.1, Nat.le_trans hc.2.2.2 (by omega)⟩
  | proceed q f t =>
    rw [searchCard_proceed o a st q f t st1 hp]
    by_cases hf : f.isEmpty
    · rw [if_pos hf]
      have hb := broadenAfterZero_counters o a q st1
      obtain ⟨h1, h2, h3, h4⟩ := hc
      obtain ⟨b1, b2, b3, b4⟩ := hb
      exact ⟨by omega, by omega, by omega, by omega⟩
    · rw [if_neg hf]
      simpa using ⟨hc.1, Nat.le_trans hc.2.1 (by omega), hc.2.2.1,
        Nat.le_trans hc.2.2.2 (by omega)⟩

theorem searchCard_log (o : Oracle) (a : SearchArgs) (st : SvcState) :
    ∀ e ∈ ((searchCard o a st).2).callLog,
      e ∈ st.callLog ∨
      (∃ q, buildQuery a = .ok q ∧ e.searchQuery = q) ∨
      (∃ q1, buildQuery (dropNumbered a) = .ok q1 ∧ e.searchQuery = q1) ∨
      (∃ q2, buildQuery (dropVarietyParallel a) = .ok q2 ∧ e.searchQuery = q2) := by
  intro e he
  rcases hp : searchPhase1 o a st with ⟨out, st1⟩
  have hl := searchPhase1_log o a st
  rw [hp] at hl
  cases out with
  | early r =>
    rw [searchCard_early o a st r st1 hp] at he
    rcases hl e he with hmem | hq
    · exact Or.inl hmem
    · exact Or.inr (Or.inl hq)
  | proceed q f t =>
    obtain ⟨hq, -, -, hlog, -, -, -⟩ := searchPhase1_proceed_inv o a st q f t st1 hp
    rw [searchCard_proceed o a st q f t st1 hp] at he
    by_cases hf : f.isEmpty
    · rw [if_pos hf] at he
      rcases broadenAfterZero_log o a q st1 e he with hmem | hqq | hq1 | hq2
      · rw [hlog] at hmem
        exact Or.inl hmem
      · exact Or.inr (Or.inl ⟨q, hq, hqq⟩)
      · exact Or.inr (Or.inr (Or.inl hq1))
      · exact Or.inr (Or.inr (Or.inr hq2))
    · rw [if_neg hf] at he
      rcases finishWithItems_log q f t a.cardId st1 e he with hmem | hqq
      · rw [hlog] at hmem
        exact Or.inl hmem
      · exact Or.inr (Or.inl ⟨q, hq, hqq⟩)

/-! ## Helper facts about brand-term strings -/

theorem panini_append_ne_self (b : Str) : "Panini ".toList ++ b ≠ b := by
  intro h
  have hlen := congrArg List.length h
  rw [List.length_append] at hlen
  have h7 : ("Panini ".toList).length = 7 := by decide
  rw [h7] at hlen
  omega

theorem panini_append_ne_donrussOptic (b : Str) :
    "Panini ".toList ++ b ≠ "Donruss Optic".toList := by
  intro h
  have h2 : ('P' :: ("anini ".toList ++ b) : Str) = 'D' :: "onruss Optic".toList := h
  injection h2 with hc _
  exact absurd hc (by decide)

theorem panini_append_ne_toppsChrome (b : Str) :
    "Panini ".toList ++ b ≠ "Topps Chrome".toList := by
  intro h
  have h2 : ('P' :: ("anini ".toList ++ b) : Str) = 'T' :: "opps Chrome".toList := h
  injection h2 with hc _
  exact absurd hc (by decide)

theorem panini_donrussOptic_split :
    ("Panini Donruss Optic".toList : Str) = "Panini ".toList ++ "Donruss Optic".toList := by
  decide

/-- A `search_card` call whose `variety` argument is a truthy `int` (the
shape `get_average_price` produces) fails during query construction. -/
theorem buildQuery_attrError (a : SearchArgs) (n : Nat) (hv : a.variety = .intV n)
    (hn : n ≠ 0) (hm : a.manualQuery = none) : buildQuery a = .error .attrError := by
  unfold buildQuery
  rw [hm]
  unfold builtQuery
  rw [hv]
  simp [VarietyArg.truthy, buildVarietyTerms, hn]

/-! ## Claim theorems -/

/-- Claim C1 (code_bug): the claim says that when a descriptor carries both a
serial-numbering term and a variant/parallel term, and the initial query and
the Level-1 retry (numbering dropped) both yield zero accepted listings, the
engine performs a Level-2 retry dropping the variant and parallel terms.
The code does not: after the Strategy-1 retry returns, `broader_result` is
bound to a (truthy) zero-result dict, so the Strategy-2 guard
`(variety or parallel) and not broader_result` is always false.  At the
failing input (`numbered = "05/49"`, `variety = "Refractor"`, an oracle with
no listings at all) the engine performs exactly 2 live calls — the initial
query and the Level-1 retry — and both logged queries still contain the
variant term `Refractor`; no query with the variant dropped is ever
attempted, and the lookup returns the empty result. -/
theorem claim_C1 :
    ((searchCard oracleNone argsC1 st0).2).networkCalls = 2 ∧
    ((searchCard oracleNone argsC1 st0).2).callLog.length = 2 ∧
    (((searchCard oracleNone argsC1 st0).2).callLog.all
      (fun e => pyIn ("Refractor".toList) e.searchQuery)) = true ∧
    (searchCard oracleNone argsC1 st0).1
      = .ok (emptySearchResult ("2020 Mike Trout Topps #27 Refractor /49".toList)) :=
  ⟨by decide, by decide, by decide, by decide⟩

/-- Claim C2 (code_bug): the multi-item filter `_filter_items` does implement
the claimed rule — it rejects the "Lot" listing whose title lacks the item
number — but it is dead code: no caller invokes it, and `search_card`'s
pipeline applies only the relevance filter, which accepts that same listing
with score 0.8.  The conjuncts: the helper drops the listing; the title
contains the multi-item phrase `lot`; the item number `98` does not occur in
the `#`-stripped title; yet the full pipeline returns the listing as
accepted. -/
theorem claim_C2 :
    filterItems [lotItem] (some ("98".toList)) = [] ∧
    pyIn ("lot".toList) (pyLower lotItem.title) = true ∧
    pyIn (stripHash (pyLower ("98".toList))) (stripHash (pyLower lotItem.title)) = false ∧
    itemsOf (searchCard oracleLot argsJeter98 st0).1 = some [(lotItem, Q.mk' 4 5)] :=
  ⟨by decide, by decide, by decide, by decide⟩

/-- Claim C3 (confirmed): a listing whose title contains neither the
descriptor's full subject name nor its last-name token (case-insensitive)
scores 0 and is rejected by the relevance filter, regardless of the year,
brand and numbering facets. -/
theorem claim_C3 (item : Item) (year brand playerName : Str) (cardNumber : Option Str)
    (hfull : pyIn (pyLower playerName) (pyLower item.title) = false)
    (hlast : pyIn (lastNameOf playerName) (pyLower item.title) = false) :
    scoreResultRelevance item year brand playerName cardNumber = 0 ∧
    ∀ (items : List Item) (s : Q),
      (item, s) ∉ filterByRelevance items year brand playerName cardNumber (Q.mk' 3 5) := by
  have hne : (pyLower playerName).isEmpty = false := by
    cases hp : pyLower playerName with
    | nil =>
      rw [hp, pyIn_nil] at hfull
      cases hfull
    | cons c cs => rfl
  have hlast' : pyIn ((pyWords (pyLower playerName)).getLastD []) (pyLower item.title)
      = false := hlast
  rw [List.getLastD_eq_getLast?] at hlast'
  have hscore : scoreResultRelevance item year brand playerName cardNumber = 0 := by
    simp [scoreResultRelevance, hfull, hne, hlast']
  refine ⟨hscore, ?_⟩
  intro items s hmem
  rw [filterByRelevance, mem_sortByScore, List.mem_filterMap] at hmem
  obtain ⟨a, ha, hsome⟩ := hmem
  by_cases hble : Q.ble (Q.mk' 3 5) (scoreResultRelevance a year brand playerName cardNumber)
      = true
  · rw [if_pos hble] at hsome
    injection hsome with hpair
    have ha1 : a = item := congrArg Prod.fst hpair
    rw [ha1, hscore] at hble
    exact absurd hble (by decide)
  · rw [if_neg hble] at hsome
    cases hsome

/-- Witness for C3 at a concrete input: a 1993 Topps Mariano Rivera listing
scores 0 against the Derek Jeter descriptor even though year, brand and
card number all match, and it is rejected. -/
theorem claim_C3_witness :
    scoreResultRelevance wrongPlayerItem ("1993".toList) ("Topps".toList)
      ("Derek Jeter".toList) (some ("98".toList)) = 0 ∧
    (wrongPlayerItem, 0) ∉ filterByRelevance [wrongPlayerItem] ("1993".toList)
      ("Topps".toList) ("Derek Jeter".toList) (some ("98".toList)) (Q.mk' 3 5) := by
  have h := claim_C3 wrongPlayerItem ("1993".toList) ("Topps".toList) ("Derek Jeter".toList)
    (some ("98".toList)) (by decide) (by decide)
  exact ⟨h.1, h.2 [wrongPlayerItem] 0⟩

/-- Claim C4 (confirmed): for at least 4 valid prices, the representative
average is the 2-decimal rounding of the arithmetic mean of the
interquartile slice of the sorted prices (the `min(10, n//2)` safety
fallback never fires), min and max are taken over all collected prices, and
the median follows the standard even/odd formula on the full sorted list.
For the spec's example `[5,5,6,6,7,500]` the trimmed slice is `[5,6,6]` —
excluding 500 — giving average 5.67 while min 5 and max 500 are exact. -/
theorem claim_C4 :
    (∀ items : List Item, 4 ≤ (collectPrices items).length →
      (calculatePricing items).avgPrice
          = some (round2 (listMean (iqrSlice (collectPrices items)))) ∧
      (calculatePricing items).minPrice = some (round2 (Q.listMin (collectPrices items))) ∧
      (calculatePricing items).maxPrice = some (round2 (Q.listMax (collectPrices items))) ∧
      (calculatePricing items).medianPrice
          = some (round2 (medianOfSorted (sortPrices (collectPrices items))))) ∧
    iqrSlice (collectPrices itemsC4) = [5, 6, 6] ∧
    (calculatePricing itemsC4).avgPrice = some (Q.mk' 567 100) ∧
    (calculatePricing itemsC4).minPrice = some 5 ∧
    (calculatePricing itemsC4).maxPrice = some 500 := by
  constructor
  · intro items h4
    have hne : (collectPrices items).isEmpty = false := by
      cases hcp : collectPrices items with
      | nil => rw [hcp] at h4; simp at h4
      | cons a l => rfl
    have hlen := length_sortPrices (collectPrices items)
    have h1 : ¬ ((sortPrices (collectPrices items)).length < 4) := by omega
    have h2 : ¬ ((((sortPrices (collectPrices items)).drop
        ((sortPrices (collectPrices items)).length / 4)).take
        (3 * (sortPrices (collectPrices items)).length / 4
          - (sortPrices (collectPrices items)).length / 4)).length
        < min 10 ((sortPrices (collectPrices items)).length / 2)) := by
      rw [List.length_take, List.length_drop]
      omega
    refine ⟨?_, ?_, ?_, ?_⟩ <;>
      simp only [calculatePricing, hne, Bool.false_eq_true, if_false, if_neg h1, if_neg h2,
        iqrSlice, medianOfSorted, listMean]
  · exact ⟨by decide, by decide, by decide, by decide⟩

/-- Witness for C4's universally quantified part at the `[5,5,6,6,7,500]`
example. -/
theorem claim_C4_witness :
    4 ≤ (collectPrices itemsC4).length ∧
    ((calculatePricing itemsC4).avgPrice
        = some (round2 (listMean (iqrSlice (collectPrices itemsC4)))) ∧
      (calculatePricing itemsC4).minPrice = some (round2 (Q.listMin (collectPrices itemsC4))) ∧
      (calculatePricing itemsC4).maxPrice = some (round2 (Q.listMax (collectPrices itemsC4))) ∧
      (calculatePricing itemsC4).medianPrice
        = some (round2 (medianOfSorted (sortPrices (collectPrices itemsC4))))) :=
  ⟨by decide, claim_C4.1 itemsC4 (by decide)⟩

/-- Claim C5 (confirmed): an uncached lookup at or over quota fails with the
rate-limit `eBayOAuthError` whose message is the rate-limit message, leaving
the request counter, network-call counter, cache and clock untouched (the
only state change is the one appended 429 log row); and between 90% and
100% of quota `_can_make_request` still allows the call but returns the
warning message. -/
theorem claim_C5 (o : Oracle) (a : SearchArgs) (st : SvcState) (q : Str)
    (hq : buildQuery a = .ok q) (hmiss : cacheLookup st.cache q = none)
    (hlimit : 5000 ≤ st.requestCount) :
    searchCard o a st =
      (.error (.oauth rateLimitMsg),
       { st with callLog := st.callLog
          ++ [mkLog q a.cardId 429 0 false false (some rateLimitMsg)] }) ∧
    ∀ c : Nat, 4500 ≤ c → c < 5000 → canMakeRequest c = (true, warnMsg c) := by
  constructor
  · exact searchCard_early o a st _ _ (searchPhase1_miss_limited o a st q hq hmiss hlimit)
  · intro c h1 h2
    exact canMakeRequest_warn c h1 h2

/-- Witness for C5: at a state with the counter exactly at the 5000-call
quota, the Jeter lookup fails with the rate-limit error and only the log
grows; and `canMakeRequest 4500` warns but allows. -/
theorem claim_C5_witness :
    buildQuery argsJeter98 = .ok ("1993 Derek Jeter Topps #98".toList) ∧
    cacheLookup stAtLimit.cache ("1993 Derek Jeter Topps #98".toList) = none ∧
    5000 ≤ stAtLimit.requestCount ∧
    searchCard oracleNone argsJeter98 stAtLimit =
      (.error (.oauth rateLimitMsg),
       { stAtLimit with callLog := stAtLimit.callLog
          ++ [mkLog ("1993 Derek Jeter Topps #98".toList) argsJeter98.cardId 429 0 false false
                (some rateLimitMsg)] }) ∧
    canMakeRequest 4500 = (true, warnMsg 4500) := by
  have h := claim_C5 oracleNone argsJeter98 stAtLimit ("1993 Derek Jeter Topps #98".toList)
    (by decide) (by decide) (by decide)
  exact ⟨by decide, by decide, by decide, h.1, h.2 4500 (by decide) (by decide)⟩

/-- Counterexample to claim C8 as stated: the brand "Optic Mania" is not on
the `PANINI_BRANDS` list, yet it receives the prefixed term
"Panini Optic Mania", because the code tests whether any list entry occurs
as a substring of the lowercased brand. -/
theorem claim_C8_counterexample :
    pyLower ("Optic Mania".toList) ∉ paniniBrands ∧
    ("Panini ".toList ++ "Optic Mania".toList) ∈ buildBrandTerms ("Optic Mania".toList) :=
  ⟨by decide, by decide⟩

/-- Claim C8 (corrected): the prefixed term "Panini <brand>" is added exactly
when some entry of the `PANINI_BRANDS` list occurs as a substring of the
lowercased brand AND the brand does not already contain "panini". -/
theorem claim_C8_amended (brand : Str) :
    ("Panini ".toList ++ brand) ∈ buildBrandTerms brand ↔
      isPaniniBrand (pyLower brand) = true ∧ pyIn ("panini".toList) (pyLower brand) = false := by
  cases brand with
  | nil => decide
  | cons c cs =>
    unfold buildBrandTerms
    rw [show ((c :: cs : Str).isEmpty) = false from rfl]
    simp only [Bool.false_eq_true, if_false]
    by_cases hP : (isPaniniBrand (pyLower (c :: cs))
        && !pyIn ("panini".toList) (pyLower (c :: cs))) = true
    · rw [if_pos hP]
      rw [Bool.and_eq_true] at hP
      obtain ⟨h1, h2⟩ := hP
      have h2' : pyIn ("panini".toList) (pyLower (c :: cs)) = false := by simpa using h2
      constructor
      · intro _
        exact ⟨h1, h2'⟩
      · intro _
        by_cases hD : pyIn ("donruss optic".toList) (pyLower (c :: cs)) = true
        · rw [if_pos hD]
          by_cases hT : pyIn ("topps chrome".toList) (pyLower (c :: cs)) = true
          · rw [if_pos hT]
            simp [mem_insertNew]
          · rw [if_neg hT]
            simp [mem_insertNew]
        · rw [if_neg hD]
          by_cases hT : pyIn ("topps chrome".toList) (pyLower (c :: cs)) = true
          · rw [if_pos hT]
            simp [mem_insertNew]
          · rw [if_neg hT]
            simp [mem_insertNew]
    · rw [if_neg hP]
      constructor
      · intro hmem
        exfalso
        have hkill : ∀ hx : ("Panini ".toList ++ (c :: cs) : Str) = (c :: cs), False :=
          fun hx => panini_append_ne_self _ hx
        have hkillD : ∀ hx : ("Panini ".toList ++ (c :: cs) : Str)
            = "Panini Donruss Optic".toList, False := by
          intro hx
          rw [panini_donrussOptic_split] at hx
          have hb : (c :: cs : Str) = "Donruss Optic".toList := List.append_cancel_left hx
          rw [hb] at hP
          exact hP (by decide)
        have hkilldO : ∀ hx : ("Panini ".toList ++ (c :: cs) : Str)
            = "Donruss Optic".toList, False :=
          fun hx => panini_append_ne_donrussOptic _ hx
        have hkillT : ∀ hx : ("Panini ".toList ++ (c :: cs) : Str)
            = "Topps Chrome".toList, False :=
          fun hx => panini_append_ne_toppsChrome _ hx
        by_cases hD : pyIn ("donruss optic".toList) (pyLower (c :: cs)) = true
        · rw [if_pos hD] at hmem
          by_cases hT : pyIn ("topps chrome".toList) (pyLower (c :: cs)) = true
          · rw [if_pos hT] at hmem
            simp only [mem_insertNew, List.mem_singleton] at hmem
            rcases hmem with ((hx | hx) | hx) | hx
            · exact hkill hx
            · exact hkillD hx
            · exact hkilldO hx
            · exact hkillT hx
          · rw [if_neg hT] at hmem
            simp only [mem_insertNew, List.mem_singleton] at hmem
            rcases hmem with (hx | hx) | hx
            · exact hkill hx
            · exact hkillD hx
            · exact hkilldO hx
        · rw [if_neg hD] at hmem
          by_cases hT : pyIn ("topps chrome".toList) (pyLower (c :: cs)) = true
          · rw [if_pos hT] at hmem
            simp only [mem_insertNew, List.mem_singleton] at hmem
            rcases hmem with hx | hx
            · exact hkill hx
            · exact hkillT hx
          · rw [if_neg hT] at hmem
            rw [List.mem_singleton] at hmem
            exact hkill hmem
      · intro hR
        have hnot : (!pyIn ("panini".toList) (pyLower (c :: cs))) = true := by
          rw [hR.2]
          rfl
        exact absurd (by rw [hR.1, hnot]; rfl) hP

/-- Witness for C8's amended claim at the brand "Donruss": on the list (as a
substring), no "panini" inside, so the prefixed term is added. -/
theorem claim_C8_witness :
    ("Panini ".toList ++ "Donruss".toList) ∈ buildBrandTerms ("Donruss".toList) :=
  (claim_C8_amended ("Donruss".toList)).2 ⟨by decide, by decide⟩

/-- Counterexample to claim C9 as stated: with a real integer card id (7),
`get_average_price` does not incorporate the id into the search query as a
variety term — `variety.lower()` raises `AttributeError` during query
construction, before any cache probe, rate check, network call or log
write, so the call crashes with the state unchanged (no query exists at
all). -/
theorem claim_C9_counterexample :
    getAveragePrice oracleNone ("1993".toList) ("Topps".toList) ("Derek Jeter".toList)
      (some ("98".toList)) (some 7) st0 = (.error .attrError, st0) := by
  decide

/-- Claim C9 (corrected): `get_average_price` does pass `card_id`
positionally into `search_card`'s `variety` parameter (see `avgArgs`), but
the consequence differs from the claim: for every truthy integer card id the
lookup raises `AttributeError` during query construction and the service
state is returned unchanged — the id is neither incorporated into a query
nor recorded in any call-log entry, because no log entry is written at
all. -/
theorem claim_C9_amended (o : Oracle) (year brand playerName : Str) (cardNumber : Option Str)
    (n : Nat) (st : SvcState) (hn : n ≠ 0) :
    getAveragePrice o year brand playerName cardNumber (some n) st
      = (.error .attrError, st) := by
  have hbq : buildQuery (avgArgs year brand playerName cardNumber (some n))
      = .error .attrError := buildQuery_attrError _ n rfl hn rfl
  unfold getAveragePrice
  rw [searchCard_early o _ st _ _ (searchPhase1_err o _ st .attrError hbq)]

/-- Witness for C9's amended claim at card id 7 and a state at quota (the
crash happens before the rate check, so even this state is untouched). -/
theorem claim_C9_witness :
    (7 : Nat) ≠ 0 ∧
    getAveragePrice oracleNone ("2020".toList) ("Prizm".toList) ("Mike Trout".toList)
      none (some 7) stAtLimit = (.error .attrError, stAtLimit) :=
  ⟨by decide, claim_C9_amended oracleNone ("2020".toList) ("Prizm".toList)
    ("Mike Trout".toList) none 7 stAtLimit (by decide)⟩

/-- Whenever the query is built from parts (no manual override) and the
descriptor carries a non-empty card number, the term `#<number>` occurs in
the built query string. -/
theorem buildQuery_contains_cardNumber (a : SearchArgs) (c : Str) (q : Str)
    (hm : a.manualQuery = none) (hc : a.cardNumber = some c) (hne : c ≠ [])
    (hq : buildQuery a = .ok q) : pyIn ('#' :: c) q = true := by
  unfold buildQuery at hq
  rw [hm] at hq
  unfold builtQuery at hq
  cases hv : (if a.variety.truthy then buildVarietyTerms a.variety else Except.ok []) with
  | error e =>
    rw [hv] at hq
    cases hq
  | ok vts =>
    rw [hv] at hq
    dsimp only at hq
    injection hq with hq
    subst hq
    apply pyIn_joinSpace_of_mem
    apply mem_uniqueTerms _ _ _ (by simp)
    have hie : c.isEmpty = false := by
      cases c with
      | nil => exact absurd rfl hne
      | cons x xs => rfl
    rw [hc]
    simp [hie]

/-- Claim C7 (confirmed): in a lookup without a manual query override whose
descriptor carries a card number, every call-log row written during the
lookup — the initial attempt and every broadening retry — has the item
number term `#<number>` inside its query (the term is never dropped), and
the lookup makes at most 2 live search calls beyond the initial one (in
fact at most 1, which is within the claimed bound). -/
theorem claim_C7 (o : Oracle) (a : SearchArgs) (st : SvcState) (c : Str)
    (hm : a.manualQuery = none) (hc : a.cardNumber = some c) (hne : c ≠ []) :
    (∀ e ∈ ((searchCard o a st).2).callLog,
      e ∈ st.callLog ∨ pyIn ('#' :: c) e.searchQuery = true) ∧
    ((searchCard o a st).2).networkCalls ≤ st.networkCalls + 3 := by
  constructor
  · intro e he
    rcases searchCard_log o a st e he with hmem | ⟨q, hq, hqq⟩ | ⟨q1, hq1, hqq⟩ | ⟨q2, hq2, hqq⟩
    · exact Or.inl hmem
    · exact Or.inr (by
        rw [hqq]
        exact buildQuery_contains_cardNumber a c q hm hc hne hq)
    · exact Or.inr (by
        rw [hqq]
        exact buildQuery_contains_cardNumber (dropNumbered a) c q1 rfl hc hne hq1)
    · exact Or.inr (by
        rw [hqq]
        exact buildQuery_contains_cardNumber (dropVarietyParallel a) c q2 rfl hc hne hq2)
  · have h := searchCard_counters o a st
    omega

/-- Witness for C7 at the C1 descriptor (card number 27) on the empty oracle:
both logged queries contain `#27` and at most 3 network calls are made. -/
theorem claim_C7_witness :
    (∀ e ∈ ((searchCard oracleNone argsC1 st0).2).callLog,
      e ∈ st0.callLog ∨ pyIn ('#' :: "27".toList) e.searchQuery = true) ∧
    ((searchCard oracleNone argsC1 st0).2).networkCalls ≤ st0.networkCalls + 3 :=
  claim_C7 oracleNone argsC1 st0 ("27".toList) rfl rfl (by decide)

@[simp] theorem finishEmpty_now (q : Str) (cid : Option Nat) (st : SvcState) :
    ((finishEmpty q cid st).2).now = st.now := rfl

@[simp] theorem finishWithItems_now (q : Str) (f : List ScoredItem) (t : Nat)
    (cid : Option Nat) (st : SvcState) : ((finishWithItems q f t cid st).2).now = st.now := by
  unfold finishWithItems
  cases (liveResult q f t).pricing.avgPrice <;> rfl

@[simp] theorem wrapMsg_now (m : Str) (q : Str) (cid : Option Nat) (st : SvcState) :
    ((wrapMsg m q cid st).2).now = st.now := rfl

@[simp] theorem wrapError_now (e : SvcError) (q : Str) (cid : Option Nat) (st : SvcState) :
    ((wrapError e q cid st).2).now = st.now := rfl

/-- If the current pass accepted no listing for the query, the broadening
block never writes a cache row for that query: the broadened sub-calls
retain the same scoring facets, so a sub-call searching the very same query
string also accepts nothing, and empty outcomes are never cached. -/
theorem broadenAfterZero_cache_none (o : Oracle) (a : SearchArgs) (q : Str) (st1 : SvcState)
    (h : cacheLookup st1.cache q = none)
    (hfz : filterByRelevance (o q).1 a.year a.brand a.playerName a.cardNumber (Q.mk' 3 5) = []) :
    cacheLookup ((broadenAfterZero o a q st1).2).cache q = none := by
  unfold broadenAfterZero
  by_cases hn : optTruthy a.numbered = true
  · rw [if_pos hn]
    have hcn := searchCardB_cache_none o (dropNumbered a) st1 q h (fun _ => hfz)
    rcases hB : searchCardB o (dropNumbered a) st1 with ⟨res, st2⟩
    rw [hB] at hcn
    cases res with
    | error e =>
      dsimp only
      simpa using hcn
    | ok br =>
      dsimp only
      by_cases hbr : 0 < br.totalResults
      · rw [if_pos hbr]
        exact hcn
      · rw [if_neg hbr]
        simpa using hcn
  · rw [if_neg hn]
    by_cases hv : (a.variety.truthy || optTruthy a.parallel) = true
    · rw [if_pos hv]
      have hcn := searchCardB_cache_none o (dropVarietyParallel a) st1 q h (fun _ => hfz)
      rcases hB : searchCardB o (dropVarietyParallel a) st1 with ⟨res, st2⟩
      rw [hB] at hcn
      cases res with
      | error e =>
        dsimp only
        simpa using hcn
      | ok br =>
        dsimp only
        by_cases hbr : 0 < br.totalResults
        · rw [if_pos hbr]
          exact hcn
        · rw [if_neg hbr]
          simpa using hcn
    · rw [if_neg hv]
      simpa using h

/-- Claim C10 (confirmed): a fresh (uncached) lookup that succeeds with zero
accepted listings — including after broadening is exhausted — writes no
cache entry for its query, so an immediately repeated identical lookup
misses the cache again, performs another live call and consumes rate budget
again. -/
theorem claim_C10 (o : Oracle) (a : SearchArgs) (st : SvcState) (q : Str)
    (hq : buildQuery a = .ok q)
    (hmiss : cacheLookup st.cache q = none)
    (hempty : itemsOf (searchCard o a st).1 = some [])
    (hrate2 : ((searchCard o a st).2).requestCount < 5000) :
    cacheLookup ((searchCard o a st).2).cache q = none ∧
    ((searchCard o a st).2).networkCalls + 1
      ≤ ((searchCard o a ((searchCard o a st).2)).2).networkCalls ∧
    ((searchCard o a st).2).requestCount + 1
      ≤ ((searchCard o a ((searchCard o a st).2)).2).requestCount := by
  have hnone : cacheLookup ((searchCard o a st).2).cache q = none := by
    by_cases hrate : st.requestCount < 5000
    · have hsc := searchCard_proceed o a st q _ _ _
        (searchPhase1_miss_live o a st q hq hmiss hrate)
      by_cases hF : (filterByRelevance (o q).1 a.year a.brand a.playerName a.cardNumber
          (Q.mk' 3 5)).isEmpty = true
      · rw [hsc, if_pos hF]
        have hfz : filterByRelevance (o q).1 a.year a.brand a.playerName a.cardNumber
            (Q.mk' 3 5) = [] := by
          cases hx : filterByRelevance (o q).1 a.year a.brand a.playerName a.cardNumber
              (Q.mk' 3 5) with
          | nil => rfl
          | cons y ys => rw [hx] at hF; cases hF
        exact broadenAfterZero_cache_none o a q _ hmiss hfz
      · exfalso
        rw [hsc, if_neg hF] at hempty
        cases hap : (liveResult q (filterByRelevance (o q).1 a.year a.brand a.playerName
            a.cardNumber (Q.mk' 3 5)) (o q).2).pricing.avgPrice with
        | none =>
          rw [finishWithItems_unpriced _ _ _ _ _ hap] at hempty
          have h0 : (none : Option (List ScoredItem)) = some [] := hempty
          cases h0
        | some p =>
          rw [finishWithItems_priced _ _ _ _ _ p hap] at hempty
          have hcut : (filterByRelevance (o q).1 a.year a.brand a.playerName a.cardNumber
              (Q.mk' 3 5)).take 10 = [] := by
            have h2 : some ((filterByRelevance (o q).1 a.year a.brand a.playerName
                a.cardNumber (Q.mk' 3 5)).take 10) = some [] := hempty
            injection h2
          rcases List.take_eq_nil_iff.1 hcut with h10 | hnil
          · cases h10
          · rw [hnil] at hF
            exact hF rfl
    · rw [searchCard_early o a st _ _
        (searchPhase1_miss_limited o a st q hq hmiss (Nat.le_of_not_lt hrate))] at hempty
      cases hempty
  refine ⟨hnone, ?_⟩
  have hsc2 := searchCard_proceed o a ((searchCard o a st).2) q _ _ _
    (searchPhase1_miss_live o a ((searchCard o a st).2) q hq hnone hrate2)
  rw [hsc2]
  by_cases hF2 : (filterByRelevance (o q).1 a.year a.brand a.playerName a.cardNumber
      (Q.mk' 3 5)).isEmpty = true
  · rw [if_pos hF2]
    have hb := broadenAfterZero_counters o a q
      { (searchCard o a st).2 with
          networkCalls := ((searchCard o a st).2).networkCalls + 1,
          requestCount := ((searchCard o a st).2).requestCount + 1 }
    obtain ⟨b1, -, b3, -⟩ := hb
    constructor
    · exact Nat.le_trans (Nat.le_refl _) b1
    · exact Nat.le_trans (Nat.le_refl _) b3
  · rw [if_neg hF2]
    constructor
    · rw [finishWithItems_networkCalls]
    · rw [finishWithItems_requestCount]

/-- Witness for C10: the Jeter lookup on an oracle with no listings ends
empty, caches nothing for its query, and the immediate repeat performs a
second live call and consumes a second unit of rate budget. -/
theorem claim_C10_witness :
    cacheLookup ((searchCard oracleNone argsJeter st0).2).cache
      ("1993 Derek Jeter Topps".toList) = none ∧
    ((searchCard oracleNone argsJeter st0).2).networkCalls + 1
      ≤ ((searchCard oracleNone argsJeter ((searchCard oracleNone argsJeter st0).2)).2).networkCalls ∧
    ((searchCard oracleNone argsJeter st0).2).requestCount + 1
      ≤ ((searchCard oracleNone argsJeter ((searchCard oracleNone argsJeter st0).2)).2).requestCount :=
  claim_C10 oracleNone argsJeter st0 ("1993 Derek Jeter Topps".toList)
    (by decide) (by decide) (by decide) (by decide)

theorem cacheLookup_bump_self (c : List (Str × CacheEntry)) (q : Str) (e : CacheEntry)
    (h : cacheLookup c q = some e) :
    cacheLookup (bumpHit c q) q = some { e with hitCount := e.hitCount + 1 } := by
  induction c with
  | nil => cases h
  | cons p rest ih =>
    obtain ⟨pk, pe⟩ := p
    rw [cacheLookup_cons] at h
    rw [bumpHit_cons]
    by_cases hpq : pk = q
    · rw [if_pos hpq] at h
      rw [if_pos hpq, cacheLookup_cons, if_pos hpq]
      injection h with h
      rw [h]
    · rw [if_neg hpq] at h
      rw [if_neg hpq, cacheLookup_cons, if_neg hpq]
      exact ih h

theorem searchPhase1_hit_full (o : Oracle) (a : SearchArgs) (st : SvcState) (q : Str)
    (e : CacheEntry) (hq : buildQuery a = .ok q)
    (hhit : cacheLookup st.cache q = some e) (hf : st.now < e.expiresAt) :
    searchPhase1 o a st = (.early (.ok e.resultData),
      logApiCall { st with cache := bumpHit st.cache q }
        (mkLog q a.cardId 200 e.resultData.totalResults true true none)) := by
  rw [searchPhase1_ok o a st q hq, searchPhase2_hit o a q st e hhit hf]

/-- Counterexample to claim C6 as stated: for a descriptor whose lookup
finds no accepted listing (the empty oracle), nothing is cached, so the
immediately repeated lookup is a second live call: two network calls, two
units of rate budget, and no log row carries the cache-hit flag. -/
theorem claim_C6_counterexample :
    ((searchCard oracleNone argsJeter ((searchCard oracleNone argsJeter st0).2)).2).networkCalls
      = 2 ∧
    ((searchCard oracleNone argsJeter ((searchCard oracleNone argsJeter st0).2)).2).requestCount
      = 2 ∧
    (((searchCard oracleNone argsJeter
        ((searchCard oracleNone argsJeter st0).2)).2).callLog.all
      (fun e => !e.cacheHit)) = true :=
  ⟨by decide, by decide, by decide⟩

/-- When at least one collected price exists, `_calculate_pricing` reports a
(non-`None`) representative average. -/
theorem calculatePricing_avg_some (items : List Item) (h : collectPrices items ≠ []) :
    ∃ p, (calculatePricing items).avgPrice = some p := by
  cases hx : collectPrices items with
  | nil => exact absurd hx h
  | cons y ys =>
    unfold calculatePricing
    rw [hx]
    exact ⟨_, rfl⟩

/-- Claim C6 (corrected): for every descriptor whose first lookup is a live
call that accepts at least one listing on the initial (unbroadened) query,
at least one accepted listing carrying a usable price, the immediately
repeated lookup returns the identical result (hence the identical pricing
summary), consumes no rate budget and no network call, is logged as exactly
one cache-hit row, and increments the cache entry's hit counter by one.
(The usable-price proviso matters: with none, `avg_price` is `None` and the
first lookup's closing log statement raises `TypeError` after caching, so
the first lookup ends in `eBayOAuthError` rather than a result.) -/
theorem claim_C6_amended (o : Oracle) (a : SearchArgs) (st : SvcState) (q : Str)
    (hq : buildQuery a = .ok q)
    (hmiss : cacheLookup st.cache q = none)
    (hrate : st.requestCount < 5000)
    (hfilt : filterByRelevance ((o q).1) a.year a.brand a.playerName a.cardNumber (Q.mk' 3 5)
      ≠ [])
    (hprice : collectPrices ((filterByRelevance ((o q).1) a.year a.brand a.playerName
      a.cardNumber (Q.mk' 3 5)).map (fun x => x.1)) ≠ []) :
    (searchCard o a ((searchCard o a st).2)).1 = (searchCard o a st).1 ∧
    pricingOf (searchCard o a ((searchCard o a st).2)).1 = pricingOf (searchCard o a st).1 ∧
    ((searchCard o a ((searchCard o a st).2)).2).requestCount
      = ((searchCard o a st).2).requestCount ∧
    ((searchCard o a ((searchCard o a st).2)).2).networkCalls
      = ((searchCard o a st).2).networkCalls ∧
    ((searchCard o a ((searchCard o a st).2)).2).callLog
      = ((searchCard o a st).2).callLog
        ++ [mkLog q a.cardId 200 (totalOf (searchCard o a st).1) true true none] ∧
    hitCountOf ((searchCard o a ((searchCard o a st).2)).2).cache q
      = hitCountOf ((searchCard o a st).2).cache q + 1 := by
  have hFn : ¬ ((filterByRelevance (o q).1 a.year a.brand a.playerName a.cardNumber
      (Q.mk' 3 5)).isEmpty = true) := by
    intro hx
    apply hfilt
    cases hl : filterByRelevance (o q).1 a.year a.brand a.playerName a.cardNumber
        (Q.mk' 3 5) with
    | nil => rfl
    | cons y ys => rw [hl] at hx; cases hx
  obtain ⟨p, hap⟩ := calculatePricing_avg_some _ hprice
  have h1 : searchCard o a st
      = (.ok (liveResult q (filterByRelevance (o q).1 a.year a.brand a.playerName
            a.cardNumber (Q.mk' 3 5)) (o q).2),
         logApiCall (cacheResult q (liveResult q (filterByRelevance (o q).1 a.year a.brand
             a.playerName a.cardNumber (Q.mk' 3 5)) (o q).2)
             { st with networkCalls := st.networkCalls + 1,
                       requestCount := st.requestCount + 1 })
           (mkLog q a.cardId 200 ((o q).2) false true none)) := by
    rw [searchCard_proceed o a st q _ _ _ (searchPhase1_miss_live o a st q hq hmiss hrate),
      if_neg hFn]
    exact finishWithItems_priced q _ ((o q).2) a.cardId _ p hap
  have hhit : cacheLookup ((searchCard o a st).2).cache q
      = some { resultData := liveResult q (filterByRelevance (o q).1 a.year a.brand
                 a.playerName a.cardNumber (Q.mk' 3 5)) (o q).2,
               createdAt := st.now, expiresAt := st.now + 3600, hitCount := 0 } := by
    rw [h1, logApiCall_cache, cacheResult_cache]
    exact cacheLookup_store _ _ _
  have hfresh : ((searchCard o a st).2).now < st.now + 3600 := by
    rw [h1, logApiCall_now, cacheResult_now]
    show st.now < st.now + 3600
    omega
  have h2 : searchCard o a ((searchCard o a st).2)
      = (.ok (liveResult q (filterByRelevance (o q).1 a.year a.brand a.playerName
            a.cardNumber (Q.mk' 3 5)) (o q).2),
         logApiCall { (searchCard o a st).2 with
             cache := bumpHit ((searchCard o a st).2).cache q }
           (mkLog q a.cardId 200 (liveResult q (filterByRelevance (o q).1 a.year a.brand
              a.playerName a.cardNumber (Q.mk' 3 5)) (o q).2).totalResults true true none)) :=
    searchCard_early _ _ _ _ _ (searchPhase1_hit_full o a _ q _ hq hhit hfresh)
  refine ⟨?_, ?_, ?_, ?_, ?_, ?_⟩
  · rw [h2, h1]
  · rw [h2, h1]
  · rw [h2]
    rfl
  · rw [h2]
    rfl
  · rw [h2]
    rw [logApiCall_callLog]
    show ((searchCard o a st).2).callLog ++ _ = _
    rw [h1]
    rfl
  · rw [h2]
    show hitCountOf (bumpHit ((searchCard o a st).2).cache q) q
      = hitCountOf ((searchCard o a st).2).cache q + 1
    unfold hitCountOf
    rw [cacheLookup_bump_self _ q _ hhit, hhit]

/-- Witness for C6's amended claim: the Jeter descriptor against an oracle
with one fully matching listing. -/
theorem claim_C6_witness :
    (searchCard oracleGood argsJeter ((searchCard oracleGood argsJeter st0).2)).1
      = (searchCard oracleGood argsJeter st0).1 ∧
    pricingOf (searchCard oracleGood argsJeter ((searchCard oracleGood argsJeter st0).2)).1
      = pricingOf (searchCard oracleGood argsJeter st0).1 ∧
    ((searchCard oracleGood argsJeter ((searchCard oracleGood argsJeter st0).2)).2).requestCount
      = ((searchCard oracleGood argsJeter st0).2).requestCount ∧
    ((searchCard oracleGood argsJeter ((searchCard oracleGood argsJeter st0).2)).2).networkCalls
      = ((searchCard oracleGood argsJeter st0).2).networkCalls ∧
    ((searchCard oracleGood argsJeter ((searchCard oracleGood argsJeter st0).2)).2).callLog
      = ((searchCard oracleGood argsJeter st0).2).callLog
        ++ [mkLog ("1993 Derek Jeter Topps".toList) argsJeter.cardId 200
              (totalOf (searchCard oracleGood argsJeter st0).1) true true none] ∧
    hitCountOf ((searchCard oracleGood argsJeter
        ((searchCard oracleGood argsJeter st0).2)).2).cache ("1993 Derek Jeter Topps".toList)
      = hitCountOf ((searchCard oracleGood argsJeter st0).2).cache
          ("1993 Derek Jeter Topps".toList) + 1 :=
  claim_C6_amended oracleGood argsJeter st0 ("1993 Derek Jeter Topps".toList)
    (by decide) (by decide) (by decide) (by decide) (by decide)

end BaseballBinder
